import Mathlib

/-!
Verification development for the kubectl-csi-scan diagnosis engine
(packages `pkg/detect`, `pkg/types` of github.com/jdambly/kubectl-csi-scan).

Strings are modelled as `List Char` (`GoStr`), and the helpers of Go's
`strings` package used by the source are translated one by one.  Times and
durations are modelled as `Int` nanoseconds, exactly as Go's `time.Duration`
and the difference of two `time.Time` values.  The `detectedAt` timestamp,
the human-readable `description` and the `metadata` map of a finding are not
modelled: every claim under consideration is stated modulo `detectedAt`, and
none constrains `description` or `metadata`.

Go map iteration order is unspecified (and randomised by the runtime), so
everywhere the source ranges over a map, the embedding takes the iteration
order as an explicit argument (a permutation of the map's keys); the maps
themselves are association lists in insertion order.
-/

namespace CSIScan

/-- Strings of the Go source, as lists of characters. -/
abbrev GoStr := List Char

/-- Go `strings.Contains(s, sub)`. -/
def goContains (s sub : GoStr) : Bool := decide (sub <:+: s)

/-- Go `strings.HasPrefix(s, pre)`. -/
def goStartsWith (s pre : GoStr) : Bool := decide (pre <+: s)

/-- Go `strings.Index(s, pat)`: index of the first occurrence, `none` for Go's -1. -/
def goIndex : GoStr → GoStr → Option Nat
  | s, pat =>
    if goStartsWith s pat then some 0
    else
      match s with
      | [] => none
      | _ :: t => (goIndex t pat).map (· + 1)

/-- ASCII white space, the fragment of `unicode.IsSpace` exercised by the source. -/
def goIsSpace (c : Char) : Bool :=
  c = (' ') || c = ('\t') || c = ('\n') || c = ('\r')

/-- Accumulator pass behind `goFields`; `cur` is the current word, reversed. -/
def fieldsAux (cur : GoStr) : GoStr → List GoStr
  | [] => if cur.isEmpty then [] else [cur.reverse]
  | c :: t =>
    if goIsSpace c then
      if cur.isEmpty then fieldsAux [] t else cur.reverse :: fieldsAux [] t
    else fieldsAux (c :: cur) t

/-- Go `strings.Fields(s)`: split around runs of white space. -/
def goFields (s : GoStr) : List GoStr := fieldsAux [] s

/-- Go `strings.Trim(s, cutset)`: drop leading and trailing cutset characters. -/
def goTrim (s cutset : GoStr) : GoStr :=
  ((s.dropWhile (cutset.contains ·)).reverse.dropWhile (cutset.contains ·)).reverse

/-- Go `strings.ContainsAny(s, chars)`. -/
def goContainsAny (s chars : GoStr) : Bool := s.any (chars.contains ·)

/-- ASCII lower-casing, the fragment of Unicode folding the source exercises. -/
def asciiLower (c : Char) : Char :=
  if ('A') ≤ c && c ≤ ('Z') then Char.ofNat (c.toNat + 32) else c

/-- Go `strings.EqualFold(a, b)` for the ASCII keywords compared by the source. -/
def goEqualFold (a b : GoStr) : Bool := a.map asciiLower = b.map asciiLower

/-- UTF-8 byte size of one character, for Go's byte-counting `len`. -/
def utf8Bytes (c : Char) : Nat :=
  if c.toNat < 0x80 then 1
  else if c.toNat < 0x800 then 2
  else if c.toNat < 0x10000 then 3
  else 4

/-- Go `len(s)` (number of bytes of the UTF-8 encoding). -/
def goLen (s : GoStr) : Nat := (s.map utf8Bytes).sum

/-- Fuel-driven core of `goSplit`; the fuel bounds the number of cuts. -/
def goSplitAux : Nat → GoStr → GoStr → List GoStr
  | 0, s, _ => [s]
  | Nat.succ n, s, sep =>
    match goIndex s sep with
    | none => [s]
    | some i => s.take i :: goSplitAux n (s.drop (i + sep.length)) sep

/-- Go `strings.Split(s, sep)` for the non-empty separators used by the source. -/
def goSplit (s sep : GoStr) : List GoStr := goSplitAux (s.length + 1) s sep

/-- Lookup in an association list (a Go map read `m[k]`, with presence bit). -/
def alGet {α : Type} : List (GoStr × α) → GoStr → Option α
  | [], _ => none
  | q :: rest, k => if q.1 = k then some q.2 else alGet rest k

/-- Go map write `m[k] = v`: overwrite in place, or append a fresh key. -/
def alPut {α : Type} (m : List (GoStr × α)) (k : GoStr) (v : α) : List (GoStr × α) :=
  match m with
  | [] => [(k, v)]
  | (k', v') :: rest => if k' = k then (k, v) :: rest else (k', v') :: alPut rest k v

/-- The keys of an association list, in insertion order. -/
def alKeys {α : Type} (m : List (GoStr × α)) : List GoStr := m.map (·.1)

/-! ### The finding model (`pkg/types`) -/

/-- `types.IssueSeverity` constant `SeverityLow = "low"`. -/
def severityLow : GoStr := ("low").data

/-- `types.IssueSeverity` constant `SeverityMedium = "medium"`. -/
def severityMedium : GoStr := ("medium").data

/-- `types.IssueSeverity` constant `SeverityHigh = "high"`. -/
def severityHigh : GoStr := ("high").data

/-- `types.IssueSeverity` constant `SeverityCritical = "critical"`. -/
def severityCritical : GoStr := ("critical").data

/-- `types.IssueType` constant `VolumeAttachmentConflict`. -/
def volumeAttachmentConflict : GoStr := ("volume-attachment-conflict").data

/-- `types.IssueType` constant `StuckVolumeAttachment`. -/
def stuckVolumeAttachment : GoStr := ("stuck-volume-attachment").data

/-- `types.IssueType` constant `StuckVolumeDetachment`. -/
def stuckVolumeDetachment : GoStr := ("stuck-volume-detachment").data

/-- `types.IssueType` constant `MultipleAttachments`. -/
def multipleAttachments : GoStr := ("multiple-attachments").data

/-- `types.IssueType` constant `MultiAttachError`. -/
def multiAttachError : GoStr := ("multi-attach-error").data

/-- `types.IssueType` constant `FailedAttachVolume`. -/
def failedAttachVolume : GoStr := ("failed-attach-volume").data

/-- `types.IssueType` constant `StuckMountReference`. -/
def stuckMountReference : GoStr := ("stuck-mount-reference").data

/-- `types.IssueType` constant `CSIOperationFailure`. -/
def csiOperationFailure : GoStr := ("csi-operation-failure").data

/-- `types.DetectionMethod` constant `VolumeAttachmentMethod = "volumeattachments"`. -/
def volumeAttachmentMethod : GoStr := ("volumeattachments").data

/-- `types.DetectionMethod` constant `CrossNodePVCMethod = "cross-node-pvc"`. -/
def crossNodePVCMethod : GoStr := ("cross-node-pvc").data

/-- `types.DetectionMethod` constant `EventsMethod = "events"`. -/
def eventsMethod : GoStr := ("events").data

/-- `types.DetectionMethod` constant `MetricsMethod = "metrics"`. -/
def metricsMethod : GoStr := ("metrics").data

/-- `types.CSIMountIssue`, keeping the fields the claims constrain.  The
`description`, `detectedAt` and `metadata` fields of the Go struct are not
modelled (no claim constrains them; all claims are modulo `detectedAt`). -/
structure CSIMountIssue where
  typ : GoStr
  severity : GoStr
  node : GoStr
  volume : GoStr
  pvc : GoStr
  nsp : GoStr
  driver : GoStr
  detectedBy : GoStr
  deriving DecidableEq, Repr

/-! ### Durations (`time.Duration` is int64 nanoseconds) -/

/-- `time.Minute` in nanoseconds. -/
def minuteNs : Int := 60 * 1000000000

/-- `time.Hour` in nanoseconds. -/
def hourNs : Int := 60 * minuteNs

/-! ### VolumeAttachment detector (`pkg/detect`, `VolumeAttachmentDetector`) -/

/-- The used fields of `corev1.CSIPersistentVolumeSource`. -/
structure CSIVolumeSource where
  driver : GoStr
  volumeHandle : GoStr
  deriving DecidableEq, Repr

/-- The used field of the inline `corev1.PersistentVolumeSpec` (its `CSI` pointer). -/
structure InlineVolumeSpec where
  csi : Option CSIVolumeSource
  deriving DecidableEq, Repr

/-- `storagev1.VolumeAttachmentSource`: a bound-PV name or an inline spec. -/
structure VolumeAttachmentSource where
  persistentVolumeName : Option GoStr
  inlineVolumeSpec : Option InlineVolumeSpec
  deriving DecidableEq, Repr

/-- `storagev1.VolumeAttachment`, flattening spec/status to the used fields;
`attachError`/`detachError` are `some message` exactly when the Go pointers
are non-nil.  `creationTimestamp` is in nanoseconds. -/
structure VolumeAttachment where
  name : GoStr
  attacher : GoStr
  nodeName : GoStr
  source : VolumeAttachmentSource
  attached : Bool
  attachError : Option GoStr
  detachError : Option GoStr
  creationTimestamp : Int
  deriving DecidableEq, Repr

/-- `types.VolumeAttachmentInfo` (the derived per-attachment view). -/
structure VolumeAttachmentInfo where
  name : GoStr
  node : GoStr
  volumeHandle : GoStr
  driver : GoStr
  attached : Bool
  attachError : GoStr
  detachError : GoStr
  lastTransition : Int
  deriving DecidableEq, Repr

/-- `VolumeAttachmentDetector.getVolumeHandle`: bound PV name, else inline CSI
volume handle, else `"unknown"`. -/
def getVolumeHandle (source : VolumeAttachmentSource) : GoStr :=
  match source.persistentVolumeName with
  | some n => n
  | none =>
    match source.inlineVolumeSpec with
    | some inl =>
      match inl.csi with
      | some c => c.volumeHandle
      | none => ("unknown").data
    | none => ("unknown").data

/-- `VolumeAttachmentDetector.getDriverName`: inline CSI driver, else the
target driver when one is configured, else empty.  (Defined by the source but
not called from `Detect`.) -/
def getDriverName (targetDriver : GoStr) (source : VolumeAttachmentSource) : GoStr :=
  match source.inlineVolumeSpec with
  | some inl =>
    match inl.csi with
    | some c => c.driver
    | none => if targetDriver ≠ [] then targetDriver else []
  | none => if targetDriver ≠ [] then targetDriver else []

/-- The `vaInfo` value built inside `VolumeAttachmentDetector.Detect`:
in particular `Driver` is copied from `va.Spec.Attacher`. -/
def mkVAInfo (va : VolumeAttachment) : VolumeAttachmentInfo :=
  { name := va.name
    node := va.nodeName
    volumeHandle := getVolumeHandle va.source
    driver := va.attacher
    attached := va.attached
    attachError := va.attachError.getD []
    detachError := va.detachError.getD []
    lastTransition := va.creationTimestamp }

/-- `VolumeAttachmentDetector.calculateSeverity`: count of attached records in
the group passed in (`volumeAttachments[volumeHandle]` at call time). -/
def calculateSeverity (group : List VolumeAttachmentInfo) : GoStr :=
  let attachedCount := (group.filter (·.attached)).length
  if attachedCount ≥ 5 then severityCritical
  else if attachedCount ≥ 3 then severityHigh
  else if attachedCount = 2 then severityMedium
  else severityLow

/-- `VolumeAttachmentDetector.calculateMultiAttachSeverity`. -/
def calculateMultiAttachSeverity (attachedCount : Nat) : GoStr :=
  if attachedCount ≥ 5 then severityCritical
  else if attachedCount ≥ 3 then severityHigh
  else severityMedium

/-- `VolumeAttachmentDetector.calculateStuckAttachmentSeverity`. -/
def calculateStuckAttachmentSeverity (stuckDuration : Int) : GoStr :=
  if stuckDuration > 4 * hourNs then severityCritical
  else if stuckDuration > 2 * hourNs then severityHigh
  else if stuckDuration > 1 * hourNs then severityMedium
  else severityLow

/-- The error finding built in the first loop of `Detect` for an attachment
with an attach or detach error (severity is supplied by the caller). -/
def mkVAErrorIssue (va : VolumeAttachment) (severity : GoStr) : CSIMountIssue :=
  { typ := if va.detachError.isSome then stuckVolumeDetachment else failedAttachVolume
    severity := severity
    node := va.nodeName
    volume := getVolumeHandle va.source
    pvc := []
    nsp := []
    driver := (mkVAInfo va).driver
    detectedBy := volumeAttachmentMethod }

/-- The stuck-attachment finding built in the first loop of `Detect`. -/
def mkVAStuckIssue (va : VolumeAttachment) (now : Int) : CSIMountIssue :=
  { typ := stuckVolumeAttachment
    severity := calculateStuckAttachmentSeverity (now - va.creationTimestamp)
    node := va.nodeName
    volume := getVolumeHandle va.source
    pvc := []
    nsp := []
    driver := (mkVAInfo va).driver
    detectedBy := volumeAttachmentMethod }

/-- One step of the first loop of `VolumeAttachmentDetector.Detect`: the
findings this attachment contributes, given the `volumeAttachments` map as it
stands right after appending this attachment's view (the group used for error
severity is the map entry at that moment). -/
def vaStepIssues (now : Int) (va : VolumeAttachment)
    (groupSoFar : List VolumeAttachmentInfo) : List CSIMountIssue :=
  (if va.attachError.isSome || va.detachError.isSome then
    [mkVAErrorIssue va (calculateSeverity groupSoFar)]
  else []) ++
  (if !va.attached && va.attachError.isNone &&
      decide (now - va.creationTimestamp > 30 * minuteNs) then
    [mkVAStuckIssue va now]
  else [])

/-- The first loop of `VolumeAttachmentDetector.Detect`: filter by attacher,
build the `volumeAttachments` map (`m`), and emit per-attachment findings.
Returns the final map and the findings in emission order. -/
def vaProcess (targetDriver : GoStr) (now : Int) :
    List VolumeAttachment → List (GoStr × List VolumeAttachmentInfo) →
    List (GoStr × List VolumeAttachmentInfo) × List CSIMountIssue
  | [], m => (m, [])
  | va :: rest, m =>
    if targetDriver ≠ [] ∧ va.attacher ≠ targetDriver then vaProcess targetDriver now rest m
    else
      let info := mkVAInfo va
      let h := info.volumeHandle
      let m' := alPut m h ((alGet m h).getD [] ++ [info])
      ((vaProcess targetDriver now rest m').1,
        vaStepIssues now va ((alGet m' h).getD []) ++ (vaProcess targetDriver now rest m').2)

/-- The second loop of `Detect` (`for volumeHandle, attachments := range
volumeAttachments`), iterated in the supplied map order: one
`multiple-attachments` finding per volume handle with two or more currently
attached records. -/
def vaMultiIssues (m : List (GoStr × List VolumeAttachmentInfo))
    (handleOrder : List GoStr) : List CSIMountIssue :=
  handleOrder.flatMap fun h =>
    match alGet m h with
    | none => []
    | some attachments =>
      if attachments.length > 1 then
        if (attachments.filter (·.attached)).length > 1 then
          [{ typ := multipleAttachments
             severity := calculateMultiAttachSeverity (attachments.filter (·.attached)).length
             node := []
             volume := h
             pvc := []
             nsp := []
             driver := ((attachments.head?).map (·.driver)).getD []
             detectedBy := volumeAttachmentMethod }]
        else []
      else []

/-- `VolumeAttachmentDetector.Detect` on a listed snapshot, with the iteration
order of the `volumeAttachments` map supplied explicitly (Go map iteration
order is unspecified; the detector does not sort the keys). -/
def vaDetectWith (targetDriver : GoStr) (now : Int)
    (vas : List VolumeAttachment) (handleOrder : List GoStr) : List CSIMountIssue :=
  (vaProcess targetDriver now vas []).2 ++
    vaMultiIssues (vaProcess targetDriver now vas []).1 handleOrder

/-- The keys of the `volumeAttachments` map built by `Detect`, in insertion
order; a faithful run iterates them in some permutation of this list. -/
def vaHandleKeys (targetDriver : GoStr) (now : Int)
    (vas : List VolumeAttachment) : List GoStr :=
  alKeys (vaProcess targetDriver now vas []).1

/-! ### Event records (`corev1.Event`, the fields the source reads) -/

/-- The used fields of `corev1.EventSource`. -/
structure EventSource where
  component : GoStr
  host : GoStr
  deriving DecidableEq, Repr

/-- The used fields of the event's `InvolvedObject` reference. -/
structure InvolvedObject where
  kind : GoStr
  name : GoStr
  nsp : GoStr
  deriving DecidableEq, Repr

/-- The used fields of `corev1.Event`.  `lastTimestamp` and `eventTime` are
nanosecond instants, with `0` standing for Go's zero `time.Time`. -/
structure Event where
  typ : GoStr
  reason : GoStr
  message : GoStr
  lastTimestamp : Int
  eventTime : Int
  count : Int
  source : EventSource
  involvedObject : InvolvedObject
  nsp : GoStr
  deriving DecidableEq, Repr

/-! ### Cross-node PVC detector (`pkg/detect`, `CrossNodePVCDetector`) -/

/-- The used fields of a `corev1.PersistentVolumeClaim` spec. -/
structure PVCSpec where
  volumeName : GoStr
  storageClassName : Option GoStr
  deriving DecidableEq, Repr

/-- The used field of a `corev1.PersistentVolume` spec (its `CSI` pointer). -/
structure PVSpec where
  csi : Option CSIVolumeSource
  deriving DecidableEq, Repr

/-- The used field of a `storagev1.StorageClass`. -/
structure StorageClass where
  provisioner : GoStr
  deriving DecidableEq, Repr

/-- One entry of `pod.Spec.Volumes`: the claim name when the volume is backed
by a PVC (`volume.PersistentVolumeClaim`), else `none`. -/
structure PodVolume where
  pvcClaimName : Option GoStr
  deriving DecidableEq, Repr

/-- The used fields of a `corev1.Pod`. -/
structure Pod where
  nsp : GoStr
  nodeName : GoStr
  volumes : List PodVolume
  deriving DecidableEq, Repr

/-- A read-only cluster snapshot, as served by the Kubernetes client: the
listings, plus keyed records for the get calls.  A key that is absent models
a lookup that returns an error. -/
structure Cluster where
  vas : List VolumeAttachment
  pods : List Pod
  pvcs : List ((GoStr × GoStr) × PVCSpec)
  pvs : List (GoStr × PVSpec)
  storageClasses : List (GoStr × StorageClass)
  events : List Event
  deriving DecidableEq, Repr

/-- `CrossNodePVCDetector.getPVCDriver`: PVC get, bound-PV CSI driver, else
storage-class provisioner; `none` models any Go error return. -/
def getPVCDriver (cl : Cluster) (nsp pvcName : GoStr) : Option GoStr :=
  match (cl.pvcs.find? (fun p => p.1 = (nsp, pvcName))).map (·.2) with
  | none => none
  | some pvc =>
    let scPart : Option GoStr :=
      match pvc.storageClassName with
      | some scn =>
        match alGet cl.storageClasses scn with
        | none => none
        | some sc => some sc.provisioner
      | none => none
    if pvc.volumeName ≠ [] then
      match alGet cl.pvs pvc.volumeName with
      | none => none
      | some pv =>
        match pv.csi with
        | some c => some c.driver
        | none => scPart
    else scPart

/-- The accumulating maps of `CrossNodePVCDetector.Detect`:
`pvcNodeUsage`, `pvcNamespaces` and `pvcDrivers`. -/
structure CrossMaps where
  usage : List (GoStr × List (GoStr × Nat))
  namespaces : List (GoStr × GoStr)
  drivers : List (GoStr × GoStr)
  deriving DecidableEq, Repr

/-- One `volume` iteration of the pod loop of `Detect`: record namespace,
bump the per-(pvcKey, node) count, and lazily determine the driver. -/
def crossStep (cl : Cluster) (pod : Pod) (vol : PodVolume) (s : CrossMaps) : CrossMaps :=
  match vol.pvcClaimName with
  | none => s
  | some claimName =>
    let pvcKey := pod.nsp ++ [('/')] ++ claimName
    let namespaces := alPut s.namespaces pvcKey pod.nsp
    let inner := (alGet s.usage pvcKey).getD []
    let usage := alPut s.usage pvcKey (alPut inner pod.nodeName ((alGet inner pod.nodeName).getD 0 + 1))
    let drivers :=
      if (alGet s.drivers pvcKey).isSome then s.drivers
      else
        match getPVCDriver cl pod.nsp claimName with
        | some d => if d ≠ [] then alPut s.drivers pvcKey d else s.drivers
        | none => s.drivers
    { usage := usage, namespaces := namespaces, drivers := drivers }

/-- The pod loop of `Detect`: skip unscheduled pods, fold over each pod's
volumes. -/
def crossBuildMaps (cl : Cluster) : CrossMaps :=
  cl.pods.foldl
    (fun s pod =>
      if pod.nodeName = [] then s
      else pod.volumes.foldl (fun s' vol => crossStep cl pod vol s') s)
    { usage := [], namespaces := [], drivers := [] }

/-- `CrossNodePVCDetector.calculateCrossNodeSeverity`. -/
def calculateCrossNodeSeverity (nodeCount totalUsage : Nat) : GoStr :=
  if nodeCount ≥ 5 ∨ totalUsage ≥ 20 then severityCritical
  else if nodeCount ≥ 3 ∨ totalUsage ≥ 15 then severityHigh
  else if nodeCount = 2 ∨ totalUsage ≥ 10 then severityMedium
  else severityLow

/-- `CrossNodePVCDetector.calculateHighUsageSeverity`. -/
def calculateHighUsageSeverity (usage : Nat) : GoStr :=
  if usage ≥ 20 then severityCritical
  else if usage ≥ 15 then severityHigh
  else if usage ≥ 10 then severityMedium
  else severityLow

/-- The body of the analysis loop of `Detect` for one `pvcKey`: the driver
filter (a key is skipped only when a driver entry exists and fails the
substring test), then the multiple-nodes / high-single-node patterns. -/
def crossAnalyzeKey (targetDriver : GoStr) (s : CrossMaps) (pvcKey : GoStr) :
    List CSIMountIssue :=
  match alGet s.usage pvcKey with
  | none => []
  | some nodeUsage =>
    if (decide (targetDriver ≠ []) &&
        (match alGet s.drivers pvcKey with
         | some d => ! goContains d targetDriver
         | none => false)) = true then []
    else if nodeUsage.length > 1 then
      [{ typ := multipleAttachments
         severity := calculateCrossNodeSeverity nodeUsage.length ((nodeUsage.map (·.2)).sum)
         node := []
         volume := []
         pvc := pvcKey
         nsp := (alGet s.namespaces pvcKey).getD []
         driver := (alGet s.drivers pvcKey).getD []
         detectedBy := crossNodePVCMethod }]
    else if (nodeUsage.map (·.2)).sum > 10 then
      [{ typ := stuckMountReference
         severity := calculateHighUsageSeverity ((nodeUsage.map (·.2)).sum)
         node := ((nodeUsage.head?).map (·.1)).getD []
         volume := []
         pvc := pvcKey
         nsp := (alGet s.namespaces pvcKey).getD []
         driver := (alGet s.drivers pvcKey).getD []
         detectedBy := crossNodePVCMethod }]
    else []

/-- `CrossNodePVCDetector.Detect` on a snapshot, with the iteration order of
the `pvcNodeUsage` map supplied explicitly (Go map iteration order is
unspecified; the detector does not sort the keys). -/
def crossDetectWith (cl : Cluster) (targetDriver : GoStr)
    (pvcKeyOrder : List GoStr) : List CSIMountIssue :=
  pvcKeyOrder.flatMap (crossAnalyzeKey targetDriver (crossBuildMaps cl))

/-- The keys of the `pvcNodeUsage` map, in insertion order; a faithful run
iterates them in some permutation of this list. -/
def crossUsageKeys (cl : Cluster) : List GoStr := alKeys (crossBuildMaps cl).usage

/-! ### Events detector (`pkg/detect`, `EventsDetector`) and the message miner -/

/-- The sentinel `"unknown"` of the message miner. -/
def unknownStr : GoStr := ("unknown").data

/-- The apostrophe character (written by code point to keep literals plain). -/
def apos : Char := Char.ofNat 39

/-- Go cutset `"\"',.()[]"` used when trimming `pvc-` tokens. -/
def trimCutset : GoStr := [('"'), apos, (','), ('.'), ('('), (')'), ('['), (']')]

/-- Go cutset `"\"',.()[]:"` used when trimming keyword-following tokens. -/
def trimCutsetColon : GoStr := trimCutset ++ [(':')]

/-- Go cutset `"[]()\"',."` used on the `volumes=[` fragment. -/
def volumesEqCutset : GoStr := [('['), (']'), ('('), (')'), ('"'), apos, (','), ('.')]

/-- The fixed list of known CSI driver identifiers of the source. -/
def knownCSIDrivers : List GoStr :=
  [("cinder.csi.openstack.org").data,
   ("rook-ceph.rbd.csi.ceph.com").data,
   ("rook-ceph.cephfs.csi.ceph.com").data,
   ("ebs.csi.aws.com").data,
   ("disk.csi.azure.com").data,
   ("pd.csi.storage.gke.io").data]

/-- The quoted span following the first occurrence of `pattern`: Go's
`Index`/slice idiom shared by the volume, node and PVC extractors.  `none`
when the pattern does not occur or no closing quote follows. -/
def quotedAfter (message pattern : GoStr) : Option GoStr :=
  if goContains message pattern then
    match goIndex message pattern with
    | none => none
    | some s0 =>
      let start := s0 + pattern.length
      match goIndex (message.drop start) [('"')] with
      | none => none
      | some e => some ((message.drop start).take e)
  else none

/-- The quoted-pattern loop of `extractVolumeFromMessage`: the span must be
non-empty and not `"unknown"`, otherwise the next pattern is tried. -/
def volumeQuotedScan (message : GoStr) : List GoStr → Option GoStr
  | [] => none
  | pat :: rest =>
    match quotedAfter message pat with
    | some vh =>
      if vh ≠ [] ∧ vh ≠ unknownStr then some vh else volumeQuotedScan message rest
    | none => volumeQuotedScan message rest

/-- The keyword-then-next-token loop shared by the volume and PVC extractors:
return the first trimmed token that follows a keyword (case-folded match) and
passes `valid`. -/
def keywordNextScan (keywords : List GoStr) (valid : GoStr → Bool) :
    List GoStr → Option GoStr
  | w :: next :: rest =>
    if keywords.any (fun kw => goEqualFold w kw) then
      let nextWord := goTrim next trimCutsetColon
      if valid nextWord then some nextWord
      else keywordNextScan keywords valid (next :: rest)
    else keywordNextScan keywords valid (next :: rest)
  | _ => none

/-- The final word loop of `extractVolumeFromMessage`: `volumes=[` fragments,
`pvc-` prefixes, and long alphanumeric words (Go byte length > 10, with a
digit and a lowercase letter, excluding token patterns). -/
def volumeWordScan : List GoStr → GoStr
  | [] => unknownStr
  | word :: rest =>
    let cleanWord := goTrim word trimCutsetColon
    let fromVolumesEq : Option GoStr :=
      if goContains cleanWord (("volumes=[").data) then
        match goSplit cleanWord (("volumes=[").data) with
        | _ :: volumePart :: _ =>
          let vp := goTrim volumePart volumesEqCutset
          if vp ≠ [] ∧ vp ≠ unknownStr then some vp else none
        | _ => none
      else none
    match fromVolumesEq with
    | some v => v
    | none =>
      if goStartsWith cleanWord (("pvc-").data) then cleanWord
      else if goLen cleanWord > 10 &&
          goContainsAny cleanWord (("0123456789").data) &&
          goContainsAny cleanWord (("abcdefghijklmnopqrstuvwxyz").data) &&
          ! goContains cleanWord (("kube-api-access-").data) &&
          ! goContains cleanWord (("default-token-").data) then cleanWord
      else volumeWordScan rest

/-- `EventsDetector.extractVolumeFromMessage`, stage by stage in source order. -/
def extractVolumeFromMessage (message : GoStr) : GoStr :=
  let stage1 : Option GoStr :=
    if goContains message (("pvc-").data) then
      ((goFields message).find? (fun part => goStartsWith part (("pvc-").data))).map
        (fun part => goTrim part trimCutset)
    else none
  match stage1 with
  | some v => v
  | none =>
    match volumeQuotedScan message
        [("volume \"").data, ("Volume \"").data, ("volumeHandle \"").data,
         ("volumeId \"").data, ("volume_id \"").data] with
    | some v => v
    | none =>
      match keywordNextScan
          [("volume").data, ("Volume").data, ("volumeHandle").data, ("volumeId").data]
          (fun w => decide (w ≠ []) && decide (w ≠ unknownStr) && ! goContains w [(' ')])
          (goFields message) with
      | some v => v
      | none => volumeWordScan (goFields message)

/-- `EventsDetector.extractDriverFromMessage`: first known identifier found in
the message, else the configured target driver when present, else `"unknown"`. -/
def extractDriverFromMessage (targetDriver message : GoStr) : GoStr :=
  match knownCSIDrivers.find? (fun d => goContains message d) with
  | some d => d
  | none =>
    if decide (targetDriver ≠ []) && goContains message targetDriver then targetDriver
    else unknownStr

/-- Go `strings.HasSuffix(s, suf)`. -/
def goEndsWith (s suf : GoStr) : Bool := decide (suf <:+ s)

/-- The pattern loop of `extractNodeFromEvent`: quoted patterns return the
quoted span; unquoted patterns return the next trimmed non-empty token. -/
def nodeScan (message : GoStr) : List GoStr → GoStr
  | [] => []
  | pat :: rest =>
    if goContains message pat then
      match goIndex message pat with
      | none => nodeScan message rest
      | some s0 =>
        let start := s0 + pat.length
        if goEndsWith pat [('"')] then
          match goIndex (message.drop start) [('"')] with
          | some e => (message.drop start).take e
          | none => nodeScan message rest
        else
          match goFields (message.drop start) with
          | w :: _ =>
            let nodeName := goTrim w trimCutsetColon
            if nodeName ≠ [] then nodeName else nodeScan message rest
          | [] => nodeScan message rest
    else nodeScan message rest

/-- `EventsDetector.extractNodeFromEvent`. -/
def extractNodeFromEvent (e : Event) : GoStr :=
  if e.involvedObject.kind = ("Node").data then e.involvedObject.name
  else if e.source.host ≠ [] then e.source.host
  else
    nodeScan e.message
      [("node \"").data, ("Node \"").data, (" node ").data, (" Node ").data]

/-- `EventsDetector.getNodeForDisplay`. -/
def getNodeForDisplay (e : Event) : GoStr :=
  if e.involvedObject.kind = ("Node").data then e.involvedObject.name
  else if e.involvedObject.kind = ("Pod").data then
    if e.source.host ≠ [] then e.source.host else extractNodeFromEvent e
  else if e.source.host ≠ [] then e.source.host
  else []

/-- The quoted-pattern loop of `extractPVCFromEvent` (the span is returned
unconditionally once a closing quote is found). -/
def quotedScanFirst (message : GoStr) : List GoStr → Option GoStr
  | [] => none
  | pat :: rest =>
    match quotedAfter message pat with
    | some v => some v
    | none => quotedScanFirst message rest

/-- `EventsDetector.extractPVCFromEvent`. -/
def extractPVCFromEvent (e : Event) : GoStr :=
  if e.involvedObject.kind = ("PersistentVolumeClaim").data then e.involvedObject.name
  else if e.involvedObject.kind = ("Pod").data then
    match quotedScanFirst e.message
        [("pvc \"").data, ("PVC \"").data, ("persistentvolumeclaim \"").data,
         ("PersistentVolumeClaim \"").data, ("claim \"").data] with
    | some v => v
    | none =>
      match keywordNextScan [("pvc").data, ("PVC").data, ("claim").data]
          (fun w => decide (w ≠ []) && ! goContains w [(' ')])
          (goFields e.message) with
      | some v => v
      | none => []
  else []

/-- `EventsDetector.getPVCForDisplay`. -/
def getPVCForDisplay (e : Event) : GoStr :=
  if e.involvedObject.kind = ("PersistentVolumeClaim").data then
    if e.involvedObject.nsp ≠ [] ∧ e.involvedObject.nsp ≠ e.nsp then
      e.involvedObject.nsp ++ [('/')] ++ e.involvedObject.name
    else e.involvedObject.name
  else if e.involvedObject.kind = ("Pod").data then extractPVCFromEvent e
  else []

/-- `EventsDetector.isCSIRelatedEvent`.  The trailing exclusion loop of the
source returns `false` for its matches, as does the fall-through, so both
arms are written out as in the source. -/
def isCSIRelatedEvent (e : Event) : Bool :=
  if goContains e.message (("CSI").data) || goContains e.reason (("CSI").data) then true
  else if
      [(".csi.").data, ("csi.openstack.org").data, ("csi.ceph.com").data,
       ("csi.aws.com").data, ("csi.azure.com").data,
       ("csi.storage.gke.io").data].any (fun pat => goContains e.message pat) then true
  else if
      [("VolumeBindingFailed").data, ("ProvisioningFailed").data,
       ("VolumeFailedMount").data, ("VolumeFailedUnmount").data,
       ("VolumeResizeFailed").data, ("VolumeResizing").data].any
        (fun r => e.reason = r) then true
  else if (goContains e.message (("StorageClass").data) ||
        goContains e.message (("storageclass").data)) &&
      (goContains e.message (("PersistentVolume").data) ||
        goContains e.message (("volume").data)) then true
  else if
      [("kube-api-access-").data, ("default-token-").data, ("configmap").data,
       ("secret").data, ("serviceaccount").data].any
        (fun pat => goContains e.message pat) then false
  else false

/-- `EventsDetector.calculateEventSeverity`. -/
def calculateEventSeverity (e : Event) : GoStr :=
  if goContains e.message (("Multi-Attach error").data) then severityHigh
  else if goContains e.message (("GetDeviceMountRefs").data) then severityHigh
  else if e.count ≥ 10 then severityCritical
  else if e.count ≥ 7 then severityHigh
  else if e.count ≥ 3 then severityMedium
  else severityLow

/-- `EventsDetector.eventMatchesDriver`. -/
def eventMatchesDriver (e : Event) (targetDriver : GoStr) : Bool :=
  if goContains e.message targetDriver then true
  else
    let extended :=
      if decide (targetDriver ≠ []) && ! knownCSIDrivers.contains targetDriver then
        knownCSIDrivers ++ [targetDriver]
      else knownCSIDrivers
    if extended.any (fun d => decide (d ≠ targetDriver) && goContains e.message d) then false
    else if goContains e.message ((".csi.").data) then false
    else if
        [("Multi-Attach error").data, ("GetDeviceMountRefs").data,
         ("FailedAttachVolume").data, ("FailedMount").data].any
          (fun imp => goContains e.message imp || decide (e.reason = imp)) then true
    else if goContains e.reason (("CSI").data) || goContains e.message (("CSI").data) then true
    else false

/-- The finding built by every branch of `analyzeEvent` (only the issue type
varies between the branches). -/
def mkEventIssue (targetDriver : GoStr) (typ : GoStr) (e : Event) : CSIMountIssue :=
  { typ := typ
    severity := calculateEventSeverity e
    node := getNodeForDisplay e
    volume := extractVolumeFromMessage e.message
    pvc := getPVCForDisplay e
    nsp := e.nsp
    driver := extractDriverFromMessage targetDriver e.message
    detectedBy := eventsMethod }

/-- `EventsDetector.analyzeEvent`: the first-match-wins classification. -/
def analyzeEvent (targetDriver : GoStr) (e : Event) : Option CSIMountIssue :=
  if goContains e.message (("Multi-Attach error").data) then
    some (mkEventIssue targetDriver multiAttachError e)
  else if e.reason = ("FailedAttachVolume").data ∧ e.typ = ("Warning").data then
    some (mkEventIssue targetDriver failedAttachVolume e)
  else if e.reason = ("FailedMount").data ∧ e.typ = ("Warning").data then
    if goContains e.message (("GetDeviceMountRefs").data) then
      some (mkEventIssue targetDriver stuckMountReference e)
    else some (mkEventIssue targetDriver csiOperationFailure e)
  else if e.typ = ("Warning").data ∧ isCSIRelatedEvent e then
    some (mkEventIssue targetDriver csiOperationFailure e)
  else none

/-- The per-event body of the loop of `EventsDetector.Detect`: the age guard
(discard only when `lastTimestamp` and `eventTime` are both before the
cutoff), then the driver filter, then classification. -/
def eventProcess (targetDriver : GoStr) (cutoff : Int) (e : Event) : List CSIMountIssue :=
  if decide (e.lastTimestamp < cutoff) && decide (e.eventTime < cutoff) then []
  else if decide (targetDriver ≠ []) && ! eventMatchesDriver e targetDriver then []
  else (analyzeEvent targetDriver e).toList

/-- `EventsDetector.Detect` over a listed snapshot of events. -/
def eventsDetect (targetDriver : GoStr) (lookbackDuration now : Int)
    (events : List Event) : List CSIMountIssue :=
  events.flatMap (eventProcess targetDriver (now - lookbackDuration))

/-! ### Metrics detector and coordinator (`pkg/detect`, `Detector`) -/

/-- `MetricsDetector.Detect`: the framework implementation returns an empty
finding set and no error. -/
def metricsDetect : List CSIMountIssue := []

/-- The `severityOrder` map of `Detector.filterBySeverity`; a missing key
reads as Go's zero value `0`. -/
def severityOrder (s : GoStr) : Nat :=
  if s = severityLow then 1
  else if s = severityMedium then 2
  else if s = severityHigh then 3
  else if s = severityCritical then 4
  else 0

/-- `Detector.filterBySeverity`. -/
def filterBySeverity (issues : List CSIMountIssue) (minSeverity : GoStr) :
    List CSIMountIssue :=
  if minSeverity = [] then issues
  else issues.filter (fun issue => severityOrder issue.severity ≥ severityOrder minSeverity)

/-- Lexicographic order on strings (UTF-8 byte order and code-point order
agree, so this is Go's `sort.Strings` order). -/
def goStrLE : GoStr → GoStr → Bool
  | [], _ => true
  | _ :: _, [] => false
  | a :: as, b :: bs => if a = b then goStrLE as bs else decide (a < b)

/-- Insertion step of `sortStrings`. -/
def insertSorted (x : GoStr) : List GoStr → List GoStr
  | [] => [x]
  | y :: ys => if goStrLE x y then x :: y :: ys else y :: insertSorted x ys

/-- `sort.Strings`, as an insertion sort. -/
def sortStrings (l : List GoStr) : List GoStr := l.foldr insertSorted []

/-- `types.DetectionOptions` (the `OutputFormat` rendering hint is opaque to
the core and not modelled). -/
structure DetectionOptions where
  methods : List GoStr
  targetDriver : GoStr
  minSeverity : GoStr
  recommendCleanup : Bool
  deriving DecidableEq, Repr

/-- `types.DetectionSummary`.  The two count maps (`IssuesBySeverity`,
`IssuesByType`) are kept as counting functions of the summarised findings. -/
structure DetectionSummary where
  totalIssues : Nat
  affectedNodes : List GoStr
  affectedDrivers : List GoStr
  methodsUsed : List GoStr
  deriving DecidableEq, Repr

/-- `Detector.generateSummary`: the node and driver sets are collected from
non-empty fields, de-duplicated and sorted with `sort.Strings`. -/
def generateSummary (issues : List CSIMountIssue) (methodsUsed : List GoStr) :
    DetectionSummary :=
  { totalIssues := issues.length
    affectedNodes :=
      sortStrings ((issues.filterMap
        (fun i => if i.node ≠ [] then some i.node else none)).eraseDups)
    affectedDrivers :=
      sortStrings ((issues.filterMap
        (fun i => if i.driver ≠ [] then some i.driver else none)).eraseDups)
    methodsUsed := methodsUsed }

/-- `types.DetectionResult` (`generatedAt` and the recommendation text are
not modelled; no claim constrains them). -/
structure DetectionResult where
  summary : DetectionSummary
  issues : List CSIMountIssue
  deriving DecidableEq, Repr

/-- The iteration orders a run of the Go program happens to use for the two
map-ranging loops of the detectors (Go map iteration order is unspecified). -/
structure MapOrders where
  vaHandles : List GoStr
  pvcKeys : List GoStr
  deriving DecidableEq, Repr

/-- The concatenation `allIssues` built by `DetectAll`: each configured
detector's findings in declaration order — volume attachments, cross-node
PVC, events (with the 1-hour lookback wired in `NewDetector`), metrics. -/
def detectAllRaw (options : DetectionOptions) (cl : Cluster) (now : Int)
    (orders : MapOrders) : List CSIMountIssue :=
  (if options.methods.contains volumeAttachmentMethod then
    vaDetectWith options.targetDriver now cl.vas orders.vaHandles
  else []) ++
  (if options.methods.contains crossNodePVCMethod then
    crossDetectWith cl options.targetDriver orders.pvcKeys
  else []) ++
  (if options.methods.contains eventsMethod then
    eventsDetect options.targetDriver hourNs now cl.events
  else []) ++
  (if options.methods.contains metricsMethod then metricsDetect else [])

/-- The `methodsUsed` list accumulated by `DetectAll`. -/
def detectAllMethodsUsed (options : DetectionOptions) : List GoStr :=
  (if options.methods.contains volumeAttachmentMethod then [volumeAttachmentMethod] else []) ++
  (if options.methods.contains crossNodePVCMethod then [crossNodePVCMethod] else []) ++
  (if options.methods.contains eventsMethod then [eventsMethod] else []) ++
  (if options.methods.contains metricsMethod then [metricsMethod] else [])

/-- `Detector.DetectAll` on a snapshot (the success path: every listed read
succeeds): concatenate, filter by minimum severity, then build the summary
from the filtered findings. -/
def detectAll (options : DetectionOptions) (cl : Cluster) (now : Int)
    (orders : MapOrders) : DetectionResult :=
  { summary :=
      generateSummary (filterBySeverity (detectAllRaw options cl now orders) options.minSeverity)
        (detectAllMethodsUsed options)
    issues := filterBySeverity (detectAllRaw options cl now orders) options.minSeverity }

/-! ### `Detector.GetDetailedAnalysis` -/

/-- `types.NodePVCUsage`. -/
structure NodePVCUsage where
  node : GoStr
  pvcCounts : List (GoStr × Nat)
  total : Nat
  deriving DecidableEq, Repr

/-- `types.EventInfo` (the shape returned by `GetRecentEvents`). -/
structure EventInfo where
  typ : GoStr
  reason : GoStr
  message : GoStr
  obj : GoStr
  nsp : GoStr
  time : Int
  deriving DecidableEq, Repr

/-- `types.MetricQuery`. -/
structure MetricQuery where
  name : GoStr
  query : GoStr
  description : GoStr
  deriving DecidableEq, Repr

/-- A Go error value as the detectors observe it: a context-cancellation
error, or a transport/API error. -/
inductive GoErr where
  | canceled : GoErr
  | apiFailure : GoStr → GoErr
  deriving DecidableEq, Repr

/-- `detect.DetailedAnalysis`. -/
structure DetailedAnalysis where
  volumeAttachmentCount : Nat
  attachedVolumeCount : Nat
  volumeAttachmentErrors : Nat
  nodePVCUsage : List NodePVCUsage
  recentEvents : List EventInfo
  metricQueries : List MetricQuery
  recommendedAlerts : List GoStr
  deriving DecidableEq, Repr

/-- `Detector.GetDetailedAnalysis`, over the outcomes of its four underlying
sources: the attachment listing, `GetNodePVCUsage`, `GetRecentEvents` (each of
which can fail, with cancellation as one failure mode), and the pure metric
catalogue.  The `xxEnabled` flags are the nil-checks on the configured
detectors.  Each section keeps its zero values on error (`err == nil` guard),
and the function always returns a nil error. -/
def getDetailedAnalysis (vaEnabled crossEnabled eventsEnabled metricsEnabled : Bool)
    (vasRes : Except GoErr (List VolumeAttachment))
    (nodeUsageRes : Except GoErr (List NodePVCUsage))
    (recentEventsRes : Except GoErr (List EventInfo))
    (metricQueries : List MetricQuery) (recommendedAlerts : List GoStr) :
    DetailedAnalysis × Option GoErr :=
  let a0 : DetailedAnalysis :=
    { volumeAttachmentCount := 0, attachedVolumeCount := 0, volumeAttachmentErrors := 0
      nodePVCUsage := [], recentEvents := [], metricQueries := [], recommendedAlerts := [] }
  let a1 :=
    if vaEnabled then
      match vasRes with
      | .ok vas =>
        { a0 with
          volumeAttachmentCount := vas.length
          attachedVolumeCount := (vas.filter (·.attached)).length
          volumeAttachmentErrors :=
            (vas.filter (fun va => va.attachError.isSome || va.detachError.isSome)).length }
      | .error _ => a0
    else a0
  let a2 :=
    if crossEnabled then
      match nodeUsageRes with
      | .ok usage => { a1 with nodePVCUsage := usage }
      | .error _ => a1
    else a1
  let a3 :=
    if eventsEnabled then
      match recentEventsRes with
      | .ok evs => { a2 with recentEvents := evs }
      | .error _ => a2
    else a2
  let a4 :=
    if metricsEnabled then
      { a3 with metricQueries := metricQueries, recommendedAlerts := recommendedAlerts }
    else a3
  (a4, none)

/-! ### Spec-side definitions, used only to state claims against the code -/

/-- Modelled from the spec: the attachment records the target-driver filter
keeps (`TargetDriver` unset, or attacher equal to it) — the records "across
the entire listing" the claims quantify over. -/
def keptVAs (targetDriver : GoStr) (vas : List VolumeAttachment) : List VolumeAttachment :=
  vas.filter (fun va => ! (decide (targetDriver ≠ []) && decide (va.attacher ≠ targetDriver)))

/-- The severity bands of `calculateSeverity` as a function of an attached
count. -/
def severityFromAttachedCount (attachedCount : Nat) : GoStr :=
  if attachedCount ≥ 5 then severityCritical
  else if attachedCount ≥ 3 then severityHigh
  else if attachedCount = 2 then severityMedium
  else severityLow

/-- The number of currently-attached kept records sharing volume handle `h`
across the entire listing (the count the spec says error severity uses). -/
def attachedHandleCount (targetDriver : GoStr) (vas : List VolumeAttachment)
    (h : GoStr) : Nat :=
  ((keptVAs targetDriver vas).filter
    (fun va => va.attached && decide (getVolumeHandle va.source = h))).length

/-- Modelled from the spec: the cross-node driver filter as claimed — with a
target set, skip exactly when the determined driver (empty when undetermined)
does not contain the target as a substring. -/
def specCrossSkip (targetDriver determined : GoStr) : Bool :=
  decide (targetDriver ≠ []) && ! goContains determined targetDriver

/-- The effective time of an event: `lastTimestamp`, falling back to
`eventTime` when `lastTimestamp` is the zero time (as in `analyzeEvent` and
in the claims about the lookback window). -/
def effectiveTime (e : Event) : Int :=
  if e.lastTimestamp = 0 then e.eventTime else e.lastTimestamp

/-! ### Concrete fixtures used by the claim theorems -/

/-- A pod scheduled on `node`, with one PVC-backed volume named `claim`. -/
def mkPod (nsp node claim : GoStr) : Pod :=
  { nsp := nsp, nodeName := node, volumes := [{ pvcClaimName := some claim }] }

/-- An attachment bound to PV `pv` on `node` by `attacher`, in the given
attached state, with no errors, created at instant 0. -/
def mkPlainVA (attacher node pv : GoStr) (attached : Bool) : VolumeAttachment :=
  { name := pv ++ node, attacher := attacher, nodeName := node
    source := { persistentVolumeName := some pv, inlineVolumeSpec := none }
    attached := attached, attachError := none, detachError := none
    creationTimestamp := 0 }

/-- An otherwise empty cluster snapshot. -/
def emptyCluster : Cluster :=
  { vas := [], pods := [], pvcs := [], pvs := [], storageClasses := [], events := [] }

/-- C1: two PVCs, each used on two nodes, so the cross-node detector's key
loop has two keys, each emitting one finding. -/
def c1CrossCluster : Cluster :=
  { emptyCluster with
    pods :=
      [mkPod (("default").data) (("node-1").data) (("a").data),
       mkPod (("default").data) (("node-2").data) (("a").data),
       mkPod (("default").data) (("node-1").data) (("b").data),
       mkPod (("default").data) (("node-2").data) (("b").data)] }

/-- C1: two volume handles, each doubly attached, so the volume-attachment
detector's handle loop has two keys, each emitting one finding. -/
def c1VAList : List VolumeAttachment :=
  [mkPlainVA (("d").data) (("node-1").data) (("h1").data) true,
   mkPlainVA (("d").data) (("node-2").data) (("h1").data) true,
   mkPlainVA (("d").data) (("node-1").data) (("h2").data) true,
   mkPlainVA (("d").data) (("node-2").data) (("h2").data) true]

/-- C2: the inline CSI source of the attachment below. -/
def c2csi : CSIVolumeSource :=
  { driver := ("inline.csi.driver").data, volumeHandle := ("inline-vol-123").data }

/-- C2: an attachment whose source carries an inline CSI spec with a driver
different from the attacher. -/
def c2va : VolumeAttachment :=
  { name := ("inline-va").data, attacher := ("attacher.driver").data
    nodeName := ("node-1").data
    source :=
      { persistentVolumeName := none
        inlineVolumeSpec := some { csi := some c2csi } }
    attached := false, attachError := none, detachError := none
    creationTimestamp := 0 }

/-- C3: a classifiable warning event whose `lastTimestamp` (5000) is far
before the cutoff while its `eventTime` (9950) is recent. -/
def c3event : Event :=
  { typ := ("Warning").data, reason := ("FailedAttachVolume").data
    message := ("Multi-Attach error for volume pvc-123").data
    lastTimestamp := 5000, eventTime := 9950, count := 3
    source := { component := [], host := [] }
    involvedObject := { kind := ("Pod").data, name := ("p").data, nsp := ("default").data }
    nsp := ("default").data }

/-- C4: a listing where the record with the detach error comes first, before
the two other currently-attached records that share its volume handle. -/
def c4vas : List VolumeAttachment :=
  [{ mkPlainVA (("d").data) (("n0").data) (("h").data) true with
      detachError := some (("Failed to detach volume").data) },
   mkPlainVA (("d").data) (("n1").data) (("h").data) true,
   mkPlainVA (("d").data) (("n2").data) (("h").data) true]

/-- C5: one PVC used on two nodes, with every PVC lookup failing (no PVC
records in the snapshot), so its driver is never determined. -/
def c5Cluster : Cluster :=
  { emptyCluster with
    pods :=
      [mkPod (("default").data) (("node-1").data) (("pvc1").data),
       mkPod (("default").data) (("node-2").data) (("pvc1").data)] }

/-- C6: the spec's stuck-attach scenario — one attachment, attacher
`test.csi.driver`, node `node-1`, bound PV `pv-1`, not attached, no attach
error. -/
def c6va : VolumeAttachment :=
  mkPlainVA (("test.csi.driver").data) (("node-1").data) (("pv-1").data) false

/-- The single finding the code emits for the C6 scenario scanned just past
the two-hour mark. -/
def c6issue : CSIMountIssue :=
  { typ := stuckVolumeAttachment, severity := severityHigh
    node := ("node-1").data, volume := ("pv-1").data, pvc := [], nsp := []
    driver := ("test.csi.driver").data, detectedBy := volumeAttachmentMethod }

/-- C7: an event whose reason strictly contains `FailedMount` without being
equal to it, and whose message mentions no driver shape at all. -/
def c7event : Event :=
  { typ := ("Warning").data, reason := ("FailedMountExtra").data
    message := ("something broke").data
    lastTimestamp := 1, eventTime := 1, count := 1
    source := { component := [], host := [] }
    involvedObject := { kind := ("Pod").data, name := ("p").data, nsp := ("default").data }
    nsp := ("default").data }

/-- C8: a pod event whose message yields `worker-1` through the unquoted
` node ` pattern. -/
def c8nodeEvent : Event :=
  { typ := ("Warning").data, reason := ("x").data
    message := ("failure on node worker-1 crashed").data
    lastTimestamp := 1, eventTime := 1, count := 1
    source := { component := [], host := [] }
    involvedObject := { kind := ("Pod").data, name := ("p").data, nsp := ("default").data }
    nsp := ("default").data }

/-- C8: the same event with the extracted value wrapped as `"… v …"`. -/
def c8nodeEventWrapped : Event :=
  { c8nodeEvent with message := ("… worker-1 …").data }

/-- C8: a pod event whose message yields `myclaim` through the `claim`
keyword rule of the PVC extractor. -/
def c8pvcEvent : Event :=
  { c8nodeEvent with message := ("claim myclaim failed").data }

/-- C8: the same event with the extracted value wrapped as `"… v …"`. -/
def c8pvcEventWrapped : Event :=
  { c8nodeEvent with message := ("… myclaim …").data }

/-! ### Helper lemmas about the association-list maps and the detectors -/

theorem alGet_mem {α : Type} :
    ∀ {m : List (GoStr × α)} {k : GoStr} {v : α}, alGet m k = some v → (k, v) ∈ m := by
  intro m
  induction m with
  | nil => intro k v h; simp [alGet] at h
  | cons q rest ih =>
    intro k v h
    rw [alGet] at h
    split at h
    · rename_i hq
      injection h with hv
      cases q with
      | mk a b =>
        have hq' : a = k := hq
        have hv' : b = v := hv
        rw [← hq', ← hv']
        exact List.mem_cons_self _ _
    · exact List.mem_cons_of_mem _ (ih h)

theorem mem_alPut {α : Type} :
    ∀ {m : List (GoStr × α)} {k : GoStr} {v : α} {p : GoStr × α},
      p ∈ alPut m k v → p = (k, v) ∨ p ∈ m := by
  intro m
  induction m with
  | nil => intro k v p h; simp [alPut] at h; exact Or.inl h
  | cons q rest ih =>
    intro k v p h
    rw [alPut] at h
    split at h
    · rcases List.mem_cons.mp h with h' | h'
      · exact Or.inl h'
      · exact Or.inr (List.mem_cons_of_mem _ h')
    · rcases List.mem_cons.mp h with h' | h'
      · exact Or.inr (by rw [h']; exact List.mem_cons_self _ _)
      · rcases ih h' with h'' | h''
        · exact Or.inl h''
        · exact Or.inr (List.mem_cons_of_mem _ h'')

theorem alGet_alPut_self {α : Type} :
    ∀ (m : List (GoStr × α)) (k : GoStr) (v : α), alGet (alPut m k v) k = some v := by
  intro m
  induction m with
  | nil => intro k v; simp [alPut, alGet]
  | cons q rest ih =>
    intro k v
    rw [alPut]
    split
    · simp [alGet]
    · rename_i hq
      rw [alGet, if_neg hq]
      exact ih k v

theorem alGet_alPut_ne {α : Type} :
    ∀ (m : List (GoStr × α)) (k k' : GoStr) (v : α), k' ≠ k →
      alGet (alPut m k v) k' = alGet m k' := by
  intro m
  induction m with
  | nil => intro k k' v h; simp [alPut, alGet, Ne.symm h]
  | cons q rest ih =>
    intro k k' v h
    rw [alPut]
    split
    · rename_i hq
      rw [alGet, alGet,
        if_neg (show ¬((k, v).1 = k') from fun hc => h (Eq.symm hc)),
        if_neg (show ¬(q.1 = k') from fun hc => h (Eq.symm ((Eq.symm hq).trans hc)))]
    · rw [alGet, alGet]
      by_cases hq' : q.1 = k'
      · rw [if_pos hq', if_pos hq']
      · rw [if_neg hq', if_neg hq']
        exact ih k k' v h

/-- Every finding emitted for a single attachment in the first loop carries
the attacher of that attachment as its driver. -/
theorem vaStep_driver {now : Int} {va : VolumeAttachment}
    {g : List VolumeAttachmentInfo} {f : CSIMountIssue}
    (hf : f ∈ vaStepIssues now va g) : f.driver = va.attacher := by
  rw [vaStepIssues] at hf
  rcases List.mem_append.mp hf with h | h
  · split at h
    · rw [List.mem_singleton] at h
      subst h; rfl
    · simp at h
  · split at h
    · rw [List.mem_singleton] at h
      subst h; rfl
    · simp at h

/-- Every finding of the first loop of `Detect` originates from some listed
attachment and copies its attacher as the driver. -/
theorem vaProcess_issue_from {targetDriver : GoStr} {now : Int} :
    ∀ {vas : List VolumeAttachment} {m : List (GoStr × List VolumeAttachmentInfo)}
      {f : CSIMountIssue}, f ∈ (vaProcess targetDriver now vas m).2 →
      ∃ va ∈ vas, f.driver = va.attacher := by
  intro vas
  induction vas with
  | nil => intro m f h; rw [vaProcess] at h; simp at h
  | cons va rest ih =>
    intro m f h
    rw [vaProcess] at h
    split at h
    · obtain ⟨w, hw, hd⟩ := ih h
      exact ⟨w, List.mem_cons_of_mem _ hw, hd⟩
    · rcases List.mem_append.mp h with h' | h'
      · exact ⟨va, List.mem_cons_self va rest, vaStep_driver h'⟩
      · obtain ⟨w, hw, hd⟩ := ih h'
        exact ⟨w, List.mem_cons_of_mem _ hw, hd⟩

/-- The group stored under each handle after the first loop: the initial
entry followed by the views of the kept attachments with that handle, in
listing order. -/
theorem vaProcess_map {targetDriver : GoStr} {now : Int} :
    ∀ (vas : List VolumeAttachment) (m : List (GoStr × List VolumeAttachmentInfo))
      (h : GoStr),
      (alGet (vaProcess targetDriver now vas m).1 h).getD [] =
        (alGet m h).getD [] ++
          ((keptVAs targetDriver vas).filter
            (fun w => getVolumeHandle w.source = h)).map mkVAInfo := by
  intro vas
  induction vas with
  | nil => intro m h; simp [vaProcess, keptVAs]
  | cons va rest ih =>
    intro m h
    rw [vaProcess]
    split
    · rename_i hskip
      have hd : (decide (targetDriver ≠ []) && decide (va.attacher ≠ targetDriver)) = true :=
        (Bool.and_eq_true _ _).mpr ⟨decide_eq_true hskip.1, decide_eq_true hskip.2⟩
      have hk : keptVAs targetDriver (va :: rest) = keptVAs targetDriver rest := by
        simp only [keptVAs, List.filter_cons, hd]
        simp
      rw [hk]
      exact ih m h
    · rename_i hskip
      have hd : (decide (targetDriver ≠ []) && decide (va.attacher ≠ targetDriver)) = false := by
        by_cases h1 : targetDriver ≠ []
        · have h2 : ¬ va.attacher ≠ targetDriver := fun h2 => hskip ⟨h1, h2⟩
          simp [h2]
        · simp [h1]
      have hk : keptVAs targetDriver (va :: rest) = va :: keptVAs targetDriver rest := by
        simp only [keptVAs, List.filter_cons, hd]
        simp
      have hmk : (mkVAInfo va).volumeHandle = getVolumeHandle va.source := rfl
      rw [ih, hk, List.filter_cons, hmk]
      by_cases hh : getVolumeHandle va.source = h
      · rw [if_pos (decide_eq_true hh), hh, alGet_alPut_self]
        simp [List.append_assoc]
      · rw [if_neg (by simpa using hh),
          alGet_alPut_ne m (getVolumeHandle va.source) h _ (fun hc => hh (Eq.symm hc))]

@[simp] theorem mkVAInfo_attached (w : VolumeAttachment) :
    (mkVAInfo w).attached = w.attached := rfl

@[simp] theorem mkVAInfo_volumeHandle (w : VolumeAttachment) :
    (mkVAInfo w).volumeHandle = getVolumeHandle w.source := rfl

/-- The first loop distributes over list concatenation: the map threads
through, and the findings concatenate. -/
theorem vaProcess_append {targetDriver : GoStr} {now : Int} :
    ∀ (l₁ l₂ : List VolumeAttachment) (m : List (GoStr × List VolumeAttachmentInfo)),
      vaProcess targetDriver now (l₁ ++ l₂) m =
        ((vaProcess targetDriver now l₂ (vaProcess targetDriver now l₁ m).1).1,
         (vaProcess targetDriver now l₁ m).2 ++
           (vaProcess targetDriver now l₂ (vaProcess targetDriver now l₁ m).1).2) := by
  intro l₁
  induction l₁ with
  | nil => intro l₂ m; simp [vaProcess]
  | cons va rest ih =>
    intro l₂ m
    by_cases hskip : (targetDriver ≠ [] ∧ va.attacher ≠ targetDriver)
    · simp only [List.cons_append, vaProcess, if_pos hskip]
      exact ih l₂ m
    · simp only [List.cons_append, vaProcess, if_neg hskip]
      rw [show List.append rest l₂ = rest ++ l₂ from rfl, ih]
      simp [List.append_assoc]

/-- The attached count of the group the code consults when the erroring
record enters the map equals the spec-style attached count over the kept
prefix ending at that record. -/
theorem attached_count_eq (targetDriver : GoStr) (l₁ : List VolumeAttachment)
    (va : VolumeAttachment)
    (hkeep : ¬(targetDriver ≠ [] ∧ va.attacher ≠ targetDriver)) :
    ((((keptVAs targetDriver l₁).filter
        (fun w => getVolumeHandle w.source = getVolumeHandle va.source)).map mkVAInfo ++
      [mkVAInfo va]).filter (fun i => i.attached)).length =
    attachedHandleCount targetDriver (l₁ ++ [va]) (getVolumeHandle va.source) := by
  have hd : (decide (targetDriver ≠ []) && decide (va.attacher ≠ targetDriver)) = false := by
    by_cases h1 : targetDriver ≠ []
    · have h2 : va.attacher = targetDriver := not_not.mp (fun h2 => hkeep ⟨h1, h2⟩)
      simp [h2]
    · simp [h1]
  have hor : targetDriver = [] ∨ va.attacher = targetDriver := by
    by_cases h1 : targetDriver = []
    · exact Or.inl h1
    · exact Or.inr (not_not.mp (fun h2 => hkeep ⟨h1, h2⟩))
  simp only [attachedHandleCount, keptVAs]
  simp [List.filter_append, List.filter_map, List.filter_filter, List.filter_cons, hd,
    Function.comp, List.length_append, Bool.and_assoc, hor]
  cases hva : va.attached <;> simp [hva]

/-! ### Claim theorems -/

/-- C1.  The claim is right and the code is wrong: neither detector sorts the
keys of its map before iterating (`for pvcKey, nodeUsage := range
pvcNodeUsage` and `for volumeHandle, attachments := range volumeAttachments`
range over Go maps, whose iteration order is unspecified and randomised).
Witnessed here: two iteration orders, each a permutation of the detector's
own key set, under which the same snapshot yields different finding lists
(`detectedAt` and `description` are not even modelled), so the findings are
not a function of snapshot and configuration alone. -/
theorem C1_unsorted_map_iteration_breaks_determinism :
    ((([("default/a").data, ("default/b").data]).Perm (crossUsageKeys c1CrossCluster) ∧
      (([("default/b").data, ("default/a").data]).Perm (crossUsageKeys c1CrossCluster))) ∧
     crossDetectWith c1CrossCluster [] [("default/a").data, ("default/b").data] ≠
       crossDetectWith c1CrossCluster [] [("default/b").data, ("default/a").data]) ∧
    ((([("h1").data, ("h2").data]).Perm (vaHandleKeys [] 0 c1VAList) ∧
      (([("h2").data, ("h1").data]).Perm (vaHandleKeys [] 0 c1VAList))) ∧
     vaDetectWith [] 0 c1VAList [("h1").data, ("h2").data] ≠
       vaDetectWith [] 0 c1VAList [("h2").data, ("h1").data]) := by
  decide

/-- C2, counterexample.  For an attachment whose source has an inline CSI
spec with driver `inline.csi.driver` but attacher `attacher.driver`, the
emitted finding (and the view it copies) records `attacher.driver`: the
inline CSI driver is not consulted, contradicting the claimed cascade. -/
theorem C2_counterexample_inline_csi_driver_ignored :
    vaDetectWith [] (3 * hourNs) [c2va] [("inline-vol-123").data] =
      [{ typ := stuckVolumeAttachment, severity := severityHigh
         node := ("node-1").data, volume := ("inline-vol-123").data
         pvc := [], nsp := []
         driver := ("attacher.driver").data, detectedBy := volumeAttachmentMethod }] ∧
    ("attacher.driver").data ≠ ("inline.csi.driver").data := by
  decide

/-- C2, amended.  The driver recorded on the derived view, and hence on every
finding the volume-attachment detector emits, is always the attacher field of
the originating attachment record; the inline CSI driver and the
target-driver fallback (`getDriverName`) are not used by `Detect`. -/
theorem C2_amended_driver_is_attacher (targetDriver : GoStr) (now : Int)
    (vas : List VolumeAttachment) (handleOrder : List GoStr)
    (f : CSIMountIssue) (hf : f ∈ vaDetectWith targetDriver now vas handleOrder) :
    ∃ va ∈ vas, f.driver = va.attacher := by
  rcases List.mem_append.mp hf with h1 | h2
  · exact vaProcess_issue_from h1
  · rw [vaMultiIssues] at h2
    obtain ⟨hh, _, hf2⟩ := List.mem_flatMap.mp h2
    split at hf2
    · simp at hf2
    · rename_i attachments halg
      split at hf2
      · rename_i hlen
        split at hf2
        · rw [List.mem_singleton] at hf2
          subst hf2
          have hmap := @vaProcess_map targetDriver now vas [] hh
          rw [halg] at hmap
          simp only [Option.getD_some, alGet, Option.getD_none, List.nil_append] at hmap
          cases hfl : (keptVAs targetDriver vas).filter
              (fun w => getVolumeHandle w.source = hh) with
          | nil => rw [hfl] at hmap; simp at hmap; rw [hmap] at hlen; simp at hlen
          | cons w ws =>
            rw [hfl] at hmap
            have hw1 : w ∈ keptVAs targetDriver vas :=
              List.mem_of_mem_filter (by rw [hfl]; exact List.mem_cons_self _ _)
            rw [keptVAs] at hw1
            have hw : w ∈ vas := List.mem_of_mem_filter hw1
            refine ⟨w, hw, ?_⟩
            rw [hmap]
            rfl
        · simp at hf2
      · simp at hf2

/-- C2, witness: the amended theorem applied to the C2 fixture, where the
single finding's driver is the attacher `attacher.driver`. -/
theorem C2_amended_driver_is_attacher_witness :
    ∃ va ∈ [c2va],
      ({ typ := stuckVolumeAttachment, severity := severityHigh
         node := ("node-1").data, volume := ("inline-vol-123").data
         pvc := [], nsp := []
         driver := ("attacher.driver").data
         detectedBy := volumeAttachmentMethod } : CSIMountIssue).driver = va.attacher :=
  C2_amended_driver_is_attacher [] (3 * hourNs) [c2va] [("inline-vol-123").data] _
    (by decide)

/-- C3, counterexample.  An event whose `lastTimestamp` (the effective time,
since it is non-zero) lies before the cutoff still produces a finding,
because the age guard discards an event only when *both* timestamps are
stale: with `now = 10000`, `lookback = 100` (cutoff 9900), the fixture event
has effective time 5000 < 9900 yet is classified. -/
theorem C3_counterexample_stale_effective_time_classified :
    eventsDetect [] 100 10000 [c3event] ≠ [] ∧
    effectiveTime c3event < 10000 - 100 := by
  decide

/-- C3, amended.  Every finding of the events detector arises from an event
at least one of whose two timestamps (not necessarily the effective one) is
at or after the cutoff `now − lookback`. -/
theorem C3_amended_some_timestamp_recent (targetDriver : GoStr)
    (lookbackDuration now : Int) (events : List Event) (f : CSIMountIssue)
    (hf : f ∈ eventsDetect targetDriver lookbackDuration now events) :
    ∃ e ∈ events, f ∈ eventProcess targetDriver (now - lookbackDuration) e ∧
      (now - lookbackDuration ≤ e.lastTimestamp ∨
        now - lookbackDuration ≤ e.eventTime) := by
  obtain ⟨e, he, hfe⟩ := List.mem_flatMap.mp hf
  refine ⟨e, he, hfe, ?_⟩
  rw [eventProcess] at hfe
  split at hfe
  · simp at hfe
  · rename_i hguard
    rw [Bool.and_eq_true, decide_eq_true_eq, decide_eq_true_eq] at hguard
    omega

/-- C3, witness: the amended theorem at a concrete recent event (both
timestamps 9950, cutoff 9900) that yields one finding. -/
theorem C3_amended_some_timestamp_recent_witness :
    ∃ e ∈ [{ c3event with lastTimestamp := 9950 }],
      mkEventIssue [] multiAttachError { c3event with lastTimestamp := 9950 } ∈
        eventProcess [] (10000 - 100) e ∧
      (10000 - 100 ≤ e.lastTimestamp ∨ 10000 - 100 ≤ e.eventTime) :=
  C3_amended_some_timestamp_recent [] 100 10000 [{ c3event with lastTimestamp := 9950 }] _
    (by decide)

/-- C4, counterexample.  In a listing where the record with the detach error
is first, followed by two attached records sharing its volume handle, the
whole-listing attached count is 3 (claimed severity: high), but the code
counts only the records indexed so far and emits severity low: the severity
is not independent of where the erroring record appears. -/
theorem C4_counterexample_severity_depends_on_position :
    (vaDetectWith [] 0 c4vas [("h").data]).head? =
      some { typ := stuckVolumeDetachment, severity := severityLow
             node := ("n0").data, volume := ("h").data, pvc := [], nsp := []
             driver := ("d").data, detectedBy := volumeAttachmentMethod } ∧
    attachedHandleCount [] c4vas (("h").data) = 3 ∧
    severityFromAttachedCount (attachedHandleCount [] c4vas (("h").data)) =
      severityHigh ∧
    severityLow ≠ severityHigh := by
  decide

/-- C4, amended.  The error-finding severity is the attached-count band over
the *kept prefix ending at the erroring record*: for any listing
`l₁ ++ [va] ++ l₂` with `va` kept and erroring, the detector emits the error
finding for `va` with severity `severityFromAttachedCount` of the attached
count among kept records of `l₁ ++ [va]` sharing `va`'s volume handle — the
records after `va` in the listing do not contribute. -/
theorem C4_amended_prefix_count_severity (targetDriver : GoStr) (now : Int)
    (l₁ l₂ : List VolumeAttachment) (va : VolumeAttachment) (order : List GoStr)
    (hkeep : ¬(targetDriver ≠ [] ∧ va.attacher ≠ targetDriver))
    (herr : va.attachError.isSome = true ∨ va.detachError.isSome = true) :
    mkVAErrorIssue va
        (severityFromAttachedCount
          (attachedHandleCount targetDriver (l₁ ++ [va]) (getVolumeHandle va.source)))
      ∈ vaDetectWith targetDriver now (l₁ ++ va :: l₂) order := by
  rw [vaDetectWith]
  apply List.mem_append_left
  rw [vaProcess_append l₁ (va :: l₂) []]
  apply List.mem_append_right
  simp only [vaProcess, if_neg hkeep]
  apply List.mem_append_left
  rw [vaStepIssues]
  apply List.mem_append_left
  have hcond : (va.attachError.isSome || va.detachError.isSome) = true := by
    rcases herr with h | h <;> simp [h]
  rw [if_pos hcond, List.mem_singleton]
  congr 1
  have hcs : ∀ g : List VolumeAttachmentInfo,
      calculateSeverity g =
        severityFromAttachedCount ((g.filter (fun i => i.attached)).length) :=
    fun g => rfl
  rw [alGet_alPut_self]
  simp only [Option.getD_some, mkVAInfo_volumeHandle]
  have hGmap : (alGet (vaProcess targetDriver now l₁ []).1
      (getVolumeHandle va.source)).getD [] =
      ((keptVAs targetDriver l₁).filter
        (fun w => getVolumeHandle w.source = getVolumeHandle va.source)).map mkVAInfo := by
    rw [vaProcess_map l₁ [] (getVolumeHandle va.source)]
    simp [alGet]
  rw [hGmap, hcs, attached_count_eq targetDriver l₁ va hkeep]

/-- C4, witness prefix: two attached records on the same handle listed before
the erroring record. -/
def c4front : List VolumeAttachment :=
  [mkPlainVA (("d").data) (("n1").data) (("h").data) true,
   mkPlainVA (("d").data) (("n2").data) (("h").data) true]

/-- C4, witness record: the attachment with the detach error, listed last. -/
def c4errLast : VolumeAttachment :=
  { mkPlainVA (("d").data) (("n9").data) (("h").data) true with
      detachError := some (("boom").data) }

/-- C4, witness: with the erroring record listed after its two attached
peers, the amended theorem places its error finding (severity from the full
three-record count) in the detector output. -/
theorem C4_amended_prefix_count_severity_witness :
    mkVAErrorIssue c4errLast
        (severityFromAttachedCount
          (attachedHandleCount [] (c4front ++ [c4errLast])
            (getVolumeHandle c4errLast.source)))
      ∈ vaDetectWith [] 0 (c4front ++ c4errLast :: []) [("h").data] :=
  C4_amended_prefix_count_severity [] 0 c4front [] c4errLast [("h").data]
    (by decide) (Or.inr (by decide))

/-- C5, counterexample.  With `TargetDriver = test.csi.driver` and a PVC
whose driver could not be determined (every lookup fails), the claim says the
PVC is skipped (an empty determined driver does not contain the target), yet
the code emits a finding for it, with an empty driver field. -/
theorem C5_counterexample_undetermined_driver_passes :
    crossDetectWith c5Cluster (("test.csi.driver").data) [("default/pvc1").data] =
      [{ typ := multipleAttachments, severity := severityMedium
         node := [], volume := [], pvc := ("default/pvc1").data
         nsp := ("default").data, driver := []
         detectedBy := crossNodePVCMethod }] ∧
    specCrossSkip (("test.csi.driver").data) [] = true := by
  decide

/-- C6, counterexample.  The spec's stuck-attach scenario (single attachment,
attacher `test.csi.driver`, node `node-1`, PV `pv-1`, not attached, no attach
error, scanned just past the two-hour mark) produces exactly one finding with
the claimed type, severity, node, volume and driver — but its `detectedBy`
tag is the string `volumeattachments`, not `volume-attachments`. -/
theorem C6_counterexample_detectedBy_tag :
    vaDetectWith [] (2 * hourNs + minuteNs) [c6va] [("pv-1").data] = [c6issue] ∧
    c6issue.typ = stuckVolumeAttachment ∧
    c6issue.severity = severityHigh ∧
    c6issue.node = ("node-1").data ∧
    c6issue.volume = ("pv-1").data ∧
    c6issue.driver = ("test.csi.driver").data ∧
    c6issue.detectedBy = ("volumeattachments").data ∧
    c6issue.detectedBy ≠ ("volume-attachments").data := by
  decide

/-- C7, counterexample.  An event whose reason strictly contains
`FailedMount` (here `FailedMountExtra`) while its message mentions neither
the target driver, nor any known driver identifier, nor `.csi.`, nor any
important string, is rejected by the filter — the claim's "message or reason
*contains*" reading predicts acceptance, but the code compares the reason for
*equality*. -/
theorem C7_counterexample_reason_containment_rejected :
    eventMatchesDriver c7event (("test.csi.driver").data) = false ∧
    goContains c7event.reason (("FailedMount").data) = true ∧
    goContains c7event.message (("test.csi.driver").data) = false ∧
    (∀ d ∈ knownCSIDrivers, goContains c7event.message d = false) ∧
    goContains c7event.message ((".csi.").data) = false := by
  decide

/-- C6: the scenario attachment with its creation instant left symbolic. -/
def c6vaAt (creation : Int) : VolumeAttachment :=
  { name := ("pv-1node-1").data, attacher := ("test.csi.driver").data
    nodeName := ("node-1").data
    source := { persistentVolumeName := some (("pv-1").data), inlineVolumeSpec := none }
    attached := false, attachError := none, detachError := none
    creationTimestamp := creation }

/-- C6, amended.  For the stuck-attach scenario scanned at any instant with
age in `(2 h, 4 h]` (the reading of "created 2 hours ago" at a scan strictly
past the mark — at exactly two hours the band would be medium), and any
iteration order of the handle map (necessarily the singleton `pv-1`), the
detector emits exactly the one claimed finding — with `detectedBy` the code's
tag `volumeattachments`. -/
theorem C6_amended_stuck_attach_scenario (creation now : Int) (order : List GoStr)
    (h2 : 2 * hourNs < now - creation) (h4 : now - creation ≤ 4 * hourNs)
    (horder : order.Perm (vaHandleKeys [] now [c6vaAt creation])) :
    vaDetectWith [] now [c6vaAt creation] order = [c6issue] := by
  have hkeys : vaHandleKeys [] now [c6vaAt creation] = [("pv-1").data] := rfl
  rw [hkeys] at horder
  have ho : order = [("pv-1").data] := List.perm_singleton.mp horder
  subst ho
  have h30 : now - creation > 30 * minuteNs := by
    unfold hourNs at h2
    unfold minuteNs at h2 ⊢
    omega
  have e30 : decide (now - creation > 30 * minuteNs) = true := decide_eq_true h30
  have hsev : calculateStuckAttachmentSeverity (now - creation) = severityHigh := by
    rw [calculateStuckAttachmentSeverity, if_neg (not_lt.mpr h4), if_pos h2]
  simp only [vaDetectWith, vaProcess, vaStepIssues, vaMultiIssues, c6vaAt,
    mkVAInfo, getVolumeHandle, mkVAStuckIssue, alGet, alPut]
  simp [e30, hsev, c6issue]

/-- C6, witness: the amended scenario at creation 0, scanned at two hours and
one minute. -/
theorem C6_amended_stuck_attach_scenario_witness :
    vaDetectWith [] (2 * hourNs + minuteNs) [c6vaAt 0] [("pv-1").data] = [c6issue] :=
  C6_amended_stuck_attach_scenario 0 (2 * hourNs + minuteNs) [("pv-1").data]
    (by decide) (by decide) (by decide)

/-- C7, amended.  First part as claimed: with `TargetDriver` set, every event
whose message contains `.csi.` but not the target is rejected, however
important it is.  Second part corrected on the reason side: an event whose
message contains neither the target, nor any known driver identifier, nor
`.csi.` is accepted when its message *contains* one of the four important
strings, or its reason *equals* one of them, or its message or reason
contains `CSI`. -/
theorem C7_amended_driver_scoping_filter (targetDriver : GoStr) (e : Event) :
    (goContains e.message ((".csi.").data) = true →
     goContains e.message targetDriver = false →
     eventMatchesDriver e targetDriver = false) ∧
    (goContains e.message targetDriver = false →
     (∀ d ∈ knownCSIDrivers, goContains e.message d = false) →
     goContains e.message ((".csi.").data) = false →
     (([("Multi-Attach error").data, ("GetDeviceMountRefs").data,
        ("FailedAttachVolume").data, ("FailedMount").data].any
         (fun imp => goContains e.message imp || decide (e.reason = imp))) = true ∨
      goContains e.reason (("CSI").data) = true ∨
      goContains e.message (("CSI").data) = true) →
     eventMatchesDriver e targetDriver = true) := by
  constructor
  · intro hcsi htgt
    rw [eventMatchesDriver, if_neg (by simp [htgt])]
    cases hany : (if decide (targetDriver ≠ []) && ! knownCSIDrivers.contains targetDriver
        then knownCSIDrivers ++ [targetDriver] else knownCSIDrivers).any
          (fun d => decide (d ≠ targetDriver) && goContains e.message d) with
    | true => rw [if_pos hany]
    | false => rw [if_neg (by rw [hany]; exact Bool.false_ne_true), if_pos hcsi]
  · intro htgt hknown hcsi hdisj
    rw [eventMatchesDriver, if_neg (by simp [htgt])]
    have hext : (if decide (targetDriver ≠ []) && ! knownCSIDrivers.contains targetDriver
        then knownCSIDrivers ++ [targetDriver] else knownCSIDrivers).any
          (fun d => decide (d ≠ targetDriver) && goContains e.message d) = false := by
      apply List.any_eq_false.mpr
      intro d hd
      split at hd
      · rcases List.mem_append.mp hd with hmem | hmem
        · simp [hknown d hmem]
        · rw [List.mem_singleton] at hmem
          subst hmem
          simp
      · simp [hknown d hd]
    rw [if_neg (by rw [hext]; exact Bool.false_ne_true),
      if_neg (by rw [hcsi]; exact Bool.false_ne_true)]
    rcases hdisj with himp | hcsi' | hcsi'
    · rw [if_pos himp]
    · cases himp : ([("Multi-Attach error").data, ("GetDeviceMountRefs").data,
          ("FailedAttachVolume").data, ("FailedMount").data].any
            (fun imp => goContains e.message imp || decide (e.reason = imp))) with
      | true => rfl
      | false =>
        rw [if_neg (show ¬(false = true) from Bool.false_ne_true),
          if_pos (by rw [hcsi']; rfl)]
    · cases himp : ([("Multi-Attach error").data, ("GetDeviceMountRefs").data,
          ("FailedAttachVolume").data, ("FailedMount").data].any
            (fun imp => goContains e.message imp || decide (e.reason = imp))) with
      | true => rfl
      | false =>
        rw [if_neg (show ¬(false = true) from Bool.false_ne_true),
          if_pos (by rw [hcsi', Bool.or_true])]

/-- C7, witness event for the rejection part: the message names a foreign
CSI-driver shape and a Multi-Attach error, but not the target. -/
def c7aRejected : Event :=
  { c7event with
    message := ("Multi-Attach error for volume handled by other.csi.driver").data
    reason := ("FailedAttachVolume").data }

/-- C7, witness event for the acceptance part: no driver token anywhere, but
the message contains `Multi-Attach error`. -/
def c7aAccepted : Event :=
  { c7event with
    message := ("Multi-Attach error for volume xyz").data
    reason := ("x").data }

/-- C7, witness: the amended theorem applied to the two fixture events with
target `test.csi.driver`. -/
theorem C7_amended_driver_scoping_filter_witness :
    eventMatchesDriver c7aRejected (("test.csi.driver").data) = false ∧
    eventMatchesDriver c7aAccepted (("test.csi.driver").data) = true :=
  ⟨(C7_amended_driver_scoping_filter (("test.csi.driver").data) c7aRejected).1
      (by decide) (by decide),
   (C7_amended_driver_scoping_filter (("test.csi.driver").data) c7aAccepted).2
      (by decide) (by decide) (by decide) (Or.inl (by decide))⟩

/-- C8, counterexample.  The volume, node and PVC extractors are not
idempotent in the claimed sense: each value below is extracted from a
message, yet re-running the same extractor on `"… " + v + " …"` returns the
extractor's not-found sentinel instead of `v`. -/
theorem C8_counterexample_wrapped_extraction_loses_value :
    (extractVolumeFromMessage (("volume myvol mounted").data) = ("myvol").data ∧
     extractVolumeFromMessage (("… myvol …").data) = unknownStr ∧
     ("myvol").data ≠ unknownStr) ∧
    (extractNodeFromEvent c8nodeEvent = ("worker-1").data ∧
     extractNodeFromEvent c8nodeEventWrapped = [] ∧
     ("worker-1").data ≠ ([] : GoStr)) ∧
    (extractPVCFromEvent c8pvcEvent = ("myclaim").data ∧
     extractPVCFromEvent c8pvcEventWrapped = [] ∧
     ("myclaim").data ≠ ([] : GoStr)) := by
  decide

/-- Every finding `crossAnalyzeKey` emits records the analysed key in its
`pvc` field. -/
theorem crossAnalyzeKey_pvc {targetDriver : GoStr} {s : CrossMaps} {k : GoStr}
    {f : CSIMountIssue} (hf : f ∈ crossAnalyzeKey targetDriver s k) : f.pvc = k := by
  rw [crossAnalyzeKey] at hf
  split at hf
  · simp at hf
  · split at hf
    · simp at hf
    · split at hf
      · rw [List.mem_singleton] at hf
        subst hf; rfl
      · split at hf
        · rw [List.mem_singleton] at hf
          subst hf; rfl
        · simp at hf

/-- C5, amended.  With `TargetDriver` set, the cross-node detector emits a
finding for a usage-map key exactly when (i) any *stored* driver for that key
contains the target as a substring (an undetermined driver — no stored entry
— always passes), and (ii) one of the two usage patterns holds (more than one
node, or more than ten references). -/
theorem C5_amended_filter_characterization (cl : Cluster) (targetDriver : GoStr)
    (order : List GoStr) (key : GoStr) (nodeUsage : List (GoStr × Nat))
    (husage : alGet (crossBuildMaps cl).usage key = some nodeUsage)
    (horder : key ∈ order) (htgt : targetDriver ≠ []) :
    (∃ f ∈ crossDetectWith cl targetDriver order, f.pvc = key) ↔
      ((∀ d, alGet (crossBuildMaps cl).drivers key = some d →
          goContains d targetDriver = true) ∧
       (nodeUsage.length > 1 ∨ (nodeUsage.map (·.2)).sum > 10)) := by
  constructor
  · rintro ⟨f, hf, hpvc⟩
    obtain ⟨k', hk', hfk⟩ := List.mem_flatMap.mp hf
    have hkk : k' = key := (crossAnalyzeKey_pvc hfk).symm.trans hpvc
    subst hkk
    rw [crossAnalyzeKey] at hfk
    simp only [husage] at hfk
    split at hfk
    · simp at hfk
    · rename_i hskip
      have hb : (match alGet (crossBuildMaps cl).drivers k' with
          | some d => ! goContains d targetDriver
          | none => false) = false := by
        cases hbv : (match alGet (crossBuildMaps cl).drivers k' with
            | some d => ! goContains d targetDriver
            | none => false) with
        | false => rfl
        | true =>
          exact absurd (by rw [Bool.and_eq_true]
                           exact ⟨decide_eq_true htgt, hbv⟩) hskip
      refine ⟨?_, ?_⟩
      · intro d hd
        rw [hd] at hb
        simpa using hb
      · split at hfk
        · exact Or.inl (by assumption)
        · split at hfk
          · exact Or.inr (by assumption)
          · simp at hfk
  · rintro ⟨hdrv, hpat⟩
    have hb : (match alGet (crossBuildMaps cl).drivers key with
        | some d => ! goContains d targetDriver
        | none => false) = false := by
      cases hg : alGet (crossBuildMaps cl).drivers key with
      | none => rfl
      | some d =>
        show (! goContains d targetDriver) = false
        rw [hdrv d hg]
        rfl
    have hne : crossAnalyzeKey targetDriver (crossBuildMaps cl) key ≠ [] := by
      rw [crossAnalyzeKey]
      simp only [husage]
      rw [if_neg (by rw [hb, Bool.and_false]; exact Bool.false_ne_true)]
      rcases hpat with hl | hs
      · rw [if_pos hl]; simp
      · by_cases hl : nodeUsage.length > 1
        · rw [if_pos hl]; simp
        · rw [if_neg hl, if_pos hs]; simp
    obtain ⟨f, hf⟩ := List.exists_mem_of_ne_nil _ hne
    exact ⟨f, List.mem_flatMap.mpr ⟨key, horder, hf⟩, crossAnalyzeKey_pvc hf⟩

/-- C5, witness cluster: one PVC on two nodes whose bound PV carries the CSI
driver `test.csi.driver`. -/
def c5aCluster : Cluster :=
  { emptyCluster with
    pods :=
      [mkPod (("default").data) (("node-1").data) (("pvc1").data),
       mkPod (("default").data) (("node-2").data) (("pvc1").data)]
    pvcs := [(((("default").data), (("pvc1").data)),
      { volumeName := ("pv1").data, storageClassName := none })]
    pvs := [((("pv1").data),
      { csi := some { driver := ("test.csi.driver").data, volumeHandle := ("h").data } })] }

/-- C5, witness: a PVC whose determined driver contains the target and which
is used on two nodes yields a finding carrying that key. -/
theorem C5_amended_filter_characterization_witness :
    ∃ f ∈ crossDetectWith c5aCluster (("test.csi.driver").data) [("default/pvc1").data],
      f.pvc = ("default/pvc1").data :=
  (C5_amended_filter_characterization c5aCluster (("test.csi.driver").data)
      [("default/pvc1").data] (("default/pvc1").data)
      [((("node-1").data), 1), ((("node-2").data), 1)]
      (by decide) (by decide) (by decide)).mpr
    ⟨by decide, Or.inl (by decide)⟩

/-- `goContains` is substring (infix) containment. -/
theorem goContains_iff {s sub : GoStr} : goContains s sub = true ↔ sub <:+: s := by
  simp [goContains]

/-- A prefix of `l ++ (b :: r)` avoiding `b` is a prefix of `l`. -/
theorem pref_of_append_ban {b : Char} :
    ∀ {l r xs : List Char}, xs <+: l ++ (b :: r) → b ∉ xs → xs <+: l := by
  intro l
  induction l with
  | nil =>
    intro r xs h hb
    cases xs with
    | nil => exact List.nil_prefix
    | cons x xt =>
      obtain ⟨hx, _⟩ := List.cons_prefix_cons.mp h
      exact absurd (show b ∈ x :: xt by rw [← hx]; exact List.mem_cons_self _ _) hb
  | cons a l' ih =>
    intro r xs h hb
    cases xs with
    | nil => exact List.nil_prefix
    | cons x xt =>
      obtain ⟨hx, ht⟩ := List.cons_prefix_cons.mp h
      subst hx
      exact List.cons_prefix_cons.mpr ⟨rfl, ih ht (fun hm => hb (List.mem_cons_of_mem _ hm))⟩

/-- A non-empty infix of `v ++ [b, e]` avoiding `b` and `e` is an infix of `v`. -/
theorem infix_of_append_two_ban {b e : Char} :
    ∀ {v xs : List Char}, xs <:+: v ++ [b, e] → b ∉ xs → e ∉ xs → xs ≠ [] →
      xs <:+: v := by
  intro v
  induction v with
  | nil =>
    intro xs h hb he hne
    rcases List.infix_cons_iff.mp h with hp | h'
    · cases xs with
      | nil => exact absurd rfl hne
      | cons x xt =>
        obtain ⟨hx, _⟩ := List.cons_prefix_cons.mp hp
        exact absurd (show b ∈ x :: xt by rw [← hx]; exact List.mem_cons_self _ _) hb
    · rcases List.infix_cons_iff.mp h' with hp | h''
      · cases xs with
        | nil => exact absurd rfl hne
        | cons x xt =>
          obtain ⟨hx, _⟩ := List.cons_prefix_cons.mp hp
          exact absurd (show e ∈ x :: xt by rw [← hx]; exact List.mem_cons_self _ _) he
      · exact absurd (List.infix_nil.mp h'') hne
  | cons a v' ih =>
    intro xs h hb he hne
    rcases List.infix_cons_iff.mp h with hp | h'
    · exact (pref_of_append_ban (l := a :: v') (r := [e]) hp hb).isInfix
    · exact List.infix_cons (ih h' hb he hne)

/-- A non-empty infix of `"… " ++ v ++ " …"` containing neither a space nor
an ellipsis is an infix of `v`. -/
theorem infix_of_wrapped {v xs : List Char}
    (h : xs <:+: ('…' :: ' ' :: (v ++ [(' '), ('…')])))
    (hsp : (' ') ∉ xs) (hel : ('…') ∉ xs) (hne : xs ≠ []) : xs <:+: v := by
  rcases List.infix_cons_iff.mp h with hp | h'
  · cases xs with
    | nil => exact absurd rfl hne
    | cons x xt =>
      obtain ⟨hx, _⟩ := List.cons_prefix_cons.mp hp
      exact absurd (show ('…') ∈ x :: xt by rw [← hx]; exact List.mem_cons_self _ _) hel
  · rcases List.infix_cons_iff.mp h' with hp | h''
    · cases xs with
      | nil => exact absurd rfl hne
      | cons x xt =>
        obtain ⟨hx, _⟩ := List.cons_prefix_cons.mp hp
        exact absurd (show (' ') ∈ x :: xt by rw [← hx]; exact List.mem_cons_self _ _) hsp
    · exact infix_of_append_two_ban h'' hsp hel hne

/-- The first known driver found in a message is also the first found in the
ellipsis-wrapped extraction of itself. -/
theorem findStable {message k : GoStr} :
    ∀ (ds : List GoStr),
      (∀ d ∈ ds, (' ') ∉ d ∧ ('…') ∉ d ∧ d ≠ []) →
      ds.find? (fun d => goContains message d) = some k →
      ds.find? (fun d => goContains ('…' :: ' ' :: (k ++ [(' '), ('…')])) d) = some k := by
  intro ds
  induction ds with
  | nil => intro _ h; simp at h
  | cons d rest ih =>
    intro hfree hfind
    cases hd : goContains message d with
    | true =>
      rw [List.find?_cons_of_pos _ hd] at hfind
      injection hfind with hk
      subst hk
      rw [List.find?_cons_of_pos _ (goContains_iff.mpr
        (show d <:+: '…' :: ' ' :: (d ++ [(' '), ('…')]) from
          ⟨['…', (' ')], [(' '), ('…')], rfl⟩))]
    | false =>
      rw [List.find?_cons_of_neg _ (by simp [hd])] at hfind
      have hkmsg : k <:+: message := by
        have := List.find?_some hfind
        exact goContains_iff.mp this
      have hdnew : goContains ('…' :: ' ' :: (k ++ [(' '), ('…')])) d = false := by
        cases hnew : goContains ('…' :: ' ' :: (k ++ [(' '), ('…')])) d with
        | false => rfl
        | true =>
          obtain ⟨h1, h2, h3⟩ := hfree d (List.mem_cons_self _ _)
          have hdk : d <:+: k := infix_of_wrapped (goContains_iff.mp hnew) h1 h2 h3
          have : goContains message d = true := goContains_iff.mpr (hdk.trans hkmsg)
          rw [this] at hd
          exact hd
      rw [List.find?_cons_of_neg _ (by simp [hdnew])]
      exact ih (fun x hx => hfree x (List.mem_cons_of_mem _ hx)) hfind

/-- When no known driver occurs in the message, none occurs in the wrapped
target either (the target being a substring of the message). -/
theorem findNoneStable {message t : GoStr} (ht : t <:+: message) :
    ∀ (ds : List GoStr),
      (∀ d ∈ ds, (' ') ∉ d ∧ ('…') ∉ d ∧ d ≠ []) →
      ds.find? (fun d => goContains message d) = none →
      ds.find? (fun d => goContains ('…' :: ' ' :: (t ++ [(' '), ('…')])) d) = none := by
  intro ds hfree hnone
  rw [List.find?_eq_none] at hnone ⊢
  intro d hd hcontra
  obtain ⟨h1, h2, h3⟩ := hfree d hd
  have hdt : d <:+: t := infix_of_wrapped (goContains_iff.mp hcontra) h1 h2 h3
  exact hnone d hd (goContains_iff.mpr (hdt.trans ht))

/-- C8, amended.  The driver extractor is idempotent in the claimed sense:
any value `v ≠ "unknown"` it returns from some message is returned again when
it is run on `"… " + v + " …"` (the volume, node and PVC extractors fail this
law; see the counterexample). -/
theorem C8_amended_driver_extractor_idempotent (targetDriver message : GoStr)
    (h : extractDriverFromMessage targetDriver message ≠ unknownStr) :
    extractDriverFromMessage targetDriver
        (("… ").data ++ (extractDriverFromMessage targetDriver message ++ (" …").data)) =
      extractDriverFromMessage targetDriver message := by
  have hfree : ∀ d ∈ knownCSIDrivers, (' ') ∉ d ∧ ('…') ∉ d ∧ d ≠ [] := by decide
  cases hfind : knownCSIDrivers.find? (fun d => goContains message d) with
  | some k =>
    have hv : extractDriverFromMessage targetDriver message = k := by
      rw [extractDriverFromMessage, hfind]
    rw [hv]
    have hfind' := findStable knownCSIDrivers hfree hfind
    rw [extractDriverFromMessage,
      show ("… ").data ++ (k ++ (" …").data) = '…' :: ' ' :: (k ++ [(' '), ('…')]) from rfl,
      hfind']
  | none =>
    have hv : extractDriverFromMessage targetDriver message =
        (if decide (targetDriver ≠ []) && goContains message targetDriver then targetDriver
         else unknownStr) := by
      rw [extractDriverFromMessage, hfind]
    by_cases hc : (decide (targetDriver ≠ []) && goContains message targetDriver) = true
    · have hv' : extractDriverFromMessage targetDriver message = targetDriver := by
        rw [hv, if_pos hc]
      rw [hv']
      obtain ⟨hne', hcont⟩ := Bool.and_eq_true _ _ |>.mp hc
      have ht : targetDriver <:+: message := goContains_iff.mp hcont
      have hnone' := findNoneStable ht knownCSIDrivers hfree hfind
      simp only [extractDriverFromMessage,
        show ("… ").data ++ (targetDriver ++ (" …").data) =
          '…' :: ' ' :: (targetDriver ++ [(' '), ('…')]) from rfl,
        hnone']
      rw [if_pos (Bool.and_eq_true _ _ |>.mpr ⟨hne',
        goContains_iff.mpr
          (show targetDriver <:+: '…' :: ' ' :: (targetDriver ++ [(' '), ('…')]) from
            ⟨['…', (' ')], [(' '), ('…')], rfl⟩)⟩)]
    · rw [hv, if_neg hc] at h
      exact absurd rfl h

/-- C8, witness: the amended theorem at the target driver `test.csi.driver`
and a message containing it. -/
theorem C8_amended_driver_extractor_idempotent_witness :
    extractDriverFromMessage (("test.csi.driver").data)
        (("… ").data ++
          (extractDriverFromMessage (("test.csi.driver").data)
              (("hit test.csi.driver here").data) ++ (" …").data)) =
      extractDriverFromMessage (("test.csi.driver").data)
        (("hit test.csi.driver here").data) :=
  C8_amended_driver_extractor_idempotent (("test.csi.driver").data)
    (("hit test.csi.driver here").data) (by decide)

/-- C9, counterexample.  When every underlying source fails with the
cancellation error (the cancelled-context scenario), `GetDetailedAnalysis`
still returns a nil error: no cancellation error is surfaced, contrary to the
claim's "in which case a cancellation error is surfaced". -/
theorem C9_counterexample_cancellation_not_surfaced :
    (getDetailedAnalysis true true true true
        (Except.error GoErr.canceled) (Except.error GoErr.canceled)
        (Except.error GoErr.canceled) [] []).2 = none ∧
    (none : Option GoErr) ≠ some GoErr.canceled := by
  decide

/-- C9, amended.  `GetDetailedAnalysis` is best-effort and *never* returns an
error, not even on cancellation: each section's fields keep their zero values
when its source fails (for any error, cancellation included), sections with
successful sources are still populated, and the returned error is always nil. -/
theorem C9_amended_best_effort_never_errors
    (vaEnabled crossEnabled eventsEnabled metricsEnabled : Bool)
    (vasRes : Except GoErr (List VolumeAttachment))
    (nodeUsageRes : Except GoErr (List NodePVCUsage))
    (recentEventsRes : Except GoErr (List EventInfo))
    (metricQueries : List MetricQuery) (recommendedAlerts : List GoStr) :
    (getDetailedAnalysis vaEnabled crossEnabled eventsEnabled metricsEnabled
        vasRes nodeUsageRes recentEventsRes metricQueries recommendedAlerts).2 = none ∧
    (∀ er, vasRes = Except.error er →
      (getDetailedAnalysis vaEnabled crossEnabled eventsEnabled metricsEnabled
          vasRes nodeUsageRes recentEventsRes metricQueries
          recommendedAlerts).1.volumeAttachmentCount = 0 ∧
      (getDetailedAnalysis vaEnabled crossEnabled eventsEnabled metricsEnabled
          vasRes nodeUsageRes recentEventsRes metricQueries
          recommendedAlerts).1.attachedVolumeCount = 0 ∧
      (getDetailedAnalysis vaEnabled crossEnabled eventsEnabled metricsEnabled
          vasRes nodeUsageRes recentEventsRes metricQueries
          recommendedAlerts).1.volumeAttachmentErrors = 0) ∧
    (∀ er, nodeUsageRes = Except.error er →
      (getDetailedAnalysis vaEnabled crossEnabled eventsEnabled metricsEnabled
          vasRes nodeUsageRes recentEventsRes metricQueries
          recommendedAlerts).1.nodePVCUsage = []) ∧
    (∀ er, recentEventsRes = Except.error er →
      (getDetailedAnalysis vaEnabled crossEnabled eventsEnabled metricsEnabled
          vasRes nodeUsageRes recentEventsRes metricQueries
          recommendedAlerts).1.recentEvents = []) ∧
    (∀ usage, crossEnabled = true → nodeUsageRes = Except.ok usage →
      (getDetailedAnalysis vaEnabled crossEnabled eventsEnabled metricsEnabled
          vasRes nodeUsageRes recentEventsRes metricQueries
          recommendedAlerts).1.nodePVCUsage = usage) := by
  cases vaEnabled <;> cases crossEnabled <;> cases eventsEnabled <;>
    cases metricsEnabled <;> cases vasRes <;> cases nodeUsageRes <;>
    cases recentEventsRes <;> simp [getDetailedAnalysis]

/-- C9, witness: the amended theorem where the attachment listing fails with
an API error, node PVC usage succeeds, and the recent-events call is
cancelled — the call still returns a nil error, keeps zero values for the
failed sections, and keeps the successful section's data. -/
theorem C9_amended_best_effort_never_errors_witness :
    (getDetailedAnalysis true true true true
        (Except.error (GoErr.apiFailure (("boom").data)))
        (Except.ok [{ node := ("node-1").data, pvcCounts := [], total := 0 }])
        (Except.error GoErr.canceled) [] []).2 = none ∧
    (getDetailedAnalysis true true true true
        (Except.error (GoErr.apiFailure (("boom").data)))
        (Except.ok [{ node := ("node-1").data, pvcCounts := [], total := 0 }])
        (Except.error GoErr.canceled) [] []).1.volumeAttachmentCount = 0 ∧
    (getDetailedAnalysis true true true true
        (Except.error (GoErr.apiFailure (("boom").data)))
        (Except.ok [{ node := ("node-1").data, pvcCounts := [], total := 0 }])
        (Except.error GoErr.canceled) [] []).1.recentEvents = [] ∧
    (getDetailedAnalysis true true true true
        (Except.error (GoErr.apiFailure (("boom").data)))
        (Except.ok [{ node := ("node-1").data, pvcCounts := [], total := 0 }])
        (Except.error GoErr.canceled) [] []).1.nodePVCUsage =
      [{ node := ("node-1").data, pvcCounts := [], total := 0 }] := by
  have h := C9_amended_best_effort_never_errors true true true true
    (Except.error (GoErr.apiFailure (("boom").data)))
    (Except.ok [{ node := ("node-1").data, pvcCounts := [], total := 0 }])
    (Except.error GoErr.canceled) [] []
  exact ⟨h.1, (h.2.1 _ rfl).1, h.2.2.2.1 _ rfl, h.2.2.2.2 _ rfl rfl⟩

/-- A finding that survives the minimum-severity filter has rank at least the
configured minimum. -/
theorem mem_filterBySeverity {issues : List CSIMountIssue} {minSeverity : GoStr}
    {f : CSIMountIssue} (hne : minSeverity ≠ [])
    (hf : f ∈ filterBySeverity issues minSeverity) :
    severityOrder minSeverity ≤ severityOrder f.severity := by
  rw [filterBySeverity, if_neg hne] at hf
  exact of_decide_eq_true (List.mem_filter.mp hf).2

/-- C10, confirmed.  With `MinSeverity` configured to one of the four
severities, every finding in the `DetectionResult` of `DetectAll` has
severity rank at least the configured minimum's rank (ranks
`low=1 < medium=2 < high=3 < critical=4`), and the summary is built from the
already-filtered list (its total equals the result's finding count). -/
theorem C10_min_severity_filter (options : DetectionOptions) (cl : Cluster)
    (now : Int) (orders : MapOrders) (f : CSIMountIssue)
    (hmin : options.minSeverity ∈
      [severityLow, severityMedium, severityHigh, severityCritical])
    (hf : f ∈ (detectAll options cl now orders).issues) :
    severityOrder options.minSeverity ≤ severityOrder f.severity ∧
    (detectAll options cl now orders).summary.totalIssues =
      (detectAll options cl now orders).issues.length := by
  have hne : options.minSeverity ≠ [] := by
    simp only [List.mem_cons, List.mem_singleton, List.not_mem_nil, or_false] at hmin
    rcases hmin with h | h | h | h <;> rw [h] <;> decide
  exact ⟨mem_filterBySeverity hne hf, rfl⟩

/-- C10, witness: an attachment stuck for five hours yields a critical
finding; with `MinSeverity = high` it survives the filter and its rank 4
is at least rank 3. -/
theorem C10_min_severity_filter_witness :
    severityOrder severityHigh ≤ severityOrder severityCritical ∧
    (detectAll
        { methods := [volumeAttachmentMethod], targetDriver := []
          minSeverity := severityHigh, recommendCleanup := false }
        { emptyCluster with vas := [c6va] } (5 * hourNs)
        { vaHandles := [("pv-1").data], pvcKeys := [] }).summary.totalIssues =
      (detectAll
        { methods := [volumeAttachmentMethod], targetDriver := []
          minSeverity := severityHigh, recommendCleanup := false }
        { emptyCluster with vas := [c6va] } (5 * hourNs)
        { vaHandles := [("pv-1").data], pvcKeys := [] }).issues.length := by
  have h := C10_min_severity_filter
    { methods := [volumeAttachmentMethod], targetDriver := []
      minSeverity := severityHigh, recommendCleanup := false }
    { emptyCluster with vas := [c6va] } (5 * hourNs)
    { vaHandles := [("pv-1").data], pvcKeys := [] }
    { typ := stuckVolumeAttachment, severity := severityCritical
      node := ("node-1").data, volume := ("pv-1").data, pvc := [], nsp := []
      driver := ("test.csi.driver").data, detectedBy := volumeAttachmentMethod }
    (by decide) (by decide)
  exact h

end CSIScan
